import Mathlib

/-!
# SimplePebbleFace: a shallow embedding of `src/basic_face.c`

The watch face is one C file of event handlers over module-level variables.
The embedding keeps the module-level variables in a record `State`, turns each
handler into a function on `State`, and each drawing routine into a function
returning the list of graphics calls it issues.

Conventions.
* C `int` values are integers; the theorems state where the intermediate
  values fit in 32 bits.  Conversions to narrower types (`uint16_t` returns,
  `int16_t` fields) reduce modulo `2^16` explicitly.
* C `double` values are rationals; each arithmetic result passes through the
  rounding operator `Platform.fl`, of which the theorems assume the standard
  model `IsDoubleRounding`; `roundBinary64` is binary64 rounding itself.
* What the Pebble SDK and libc supply (`sin_lookup`, `strftime`, the clock,
  the layer bounds) is a parameter.
* C strings are lists of characters; a text layer keeps a pointer to its text,
  not a copy.
* Every toolkit call and every write of a module-level variable is also
  recorded, in order, in `State.trace`.
-/

namespace BasicFace

/-! ## Constants of the source -/

/-- The constant `#define MAIN_VIEW 0`. -/
def MAIN_VIEW : Int := 0
/-- The constant `#define TIMER_VIEW 1`. -/
def TIMER_VIEW : Int := 1
/-- The constant `#define ANALOG_VIEW 2`. -/
def ANALOG_VIEW : Int := 2
/-- The constant `#define NUM_VIEWS 3`. -/
def NUM_VIEWS : Int := 3

/-- The constant `#define TIMER_RESET 0`. -/
def TIMER_RESET : Int := 0
/-- The constant `#define TIMER_RUNNING 1`. -/
def TIMER_RUNNING : Int := 1
/-- The constant `#define TIMER_IDLE 2`. -/
def TIMER_IDLE : Int := 2

/-- Modelled from the spec: `TRIG_MAX_ANGLE` of the SDK header `pebble.h`,
which is not part of the repository; the value 65536 (`0x10000`) is the one
the specification works with. -/
def TRIG_MAX_ANGLE : Int := 65536

/-! ## Machine arithmetic -/

/-- Range of a 32-bit signed `int`. -/
def inInt32 (x : Int) : Prop := -2147483648 ≤ x ∧ x ≤ 2147483647

instance (x : Int) : Decidable (inInt32 x) := by
  unfold inInt32; exact inferInstance

/-- Conversion to `uint16_t`: reduction modulo `2^16`. -/
def toUInt16 (x : Int) : Int := x % 65536

/-- Conversion to `int16_t` (two's complement wrap). -/
def toInt16 (x : Int) : Int := (x + 32768) % 65536 - 32768

/-- Conversion of a `double` to `int`: truncation toward zero. -/
def truncToInt (x : ℚ) : Int := if 0 ≤ x then ⌊x⌋ else ⌈x⌉

/-! ## The platform -/

/-- Broken-down time, `struct tm`. -/
structure Tm where
  tm_sec : Int
  tm_min : Int
  tm_hour : Int
  tm_mday : Int
  tm_mon : Int
  tm_year : Int
deriving DecidableEq

/-- What the SDK and the C library supply to the program. -/
structure Platform where
  /-- Rounding of an exact result to the nearest `double`. -/
  fl : ℚ → ℚ
  /-- The SDK function `sin_lookup`. -/
  sin_lookup : Int → Int
  /-- The SDK function `cos_lookup`. -/
  cos_lookup : Int → Int
  /-- The SDK constant `TRIG_MAX_RATIO`. -/
  TRIG_MAX_RATIO : Int
  /-- The text `strftime(buf, size, format, tm)` leaves in the buffer. -/
  strftime : Nat → List Char → Tm → List Char

/-- The standard model of `double` (binary64, round to nearest) on the range
the program uses: integers up to `2^53` are exact, and the rounding of a value
of magnitude between `2^-20` and `2^40`, well inside the normal range, has
relative error at most `2^-53`. -/
def IsDoubleRounding (fl : ℚ → ℚ) : Prop :=
  (∀ n : Int, |n| ≤ 9007199254740992 → fl n = n) ∧
  (∀ x : ℚ, 1 / 1048576 ≤ |x| → |x| ≤ 1099511627776 →
    |fl x - x| ≤ |x| / 9007199254740992)

/-- Rounding to the nearest integer, ties to even. -/
def roundHalfEven (y : ℚ) : Int :=
  if y - ⌊y⌋ < 1 / 2 then ⌊y⌋
  else if 1 / 2 < y - ⌊y⌋ then ⌊y⌋ + 1
  else if ⌊y⌋ % 2 = 0 then ⌊y⌋ else ⌊y⌋ + 1

/-- Rounding to binary64 (53-bit significand, round to nearest, ties to even),
without the limits on the exponent: the value is scaled so that its
significand lies in `[2^52, 2^53)`, rounded to an integer, and scaled back. -/
def roundBinary64 (x : ℚ) : ℚ :=
  if x = 0 then 0
  else (roundHalfEven (x / 2 ^ (Int.log 2 |x| - 52)) : ℚ) * 2 ^ (Int.log 2 |x| - 52)

/-! ## Program state -/

/-- The three text layers of the window. -/
inductive LayerId where
  | g_pTimeLayer
  | g_pDateLayer
  | g_pTimerLayer
deriving DecidableEq

/-- What a text layer's text pointer refers to: `text_layer_set_text` keeps
the pointer, not a copy. -/
inductive TextRef where
  | literal (s : List Char)
  | g_szTime
  | g_szDate
  | g_szTimer
deriving DecidableEq

/-- The module-level variables. -/
inductive Var where
  | g_iBatteryCharging
  | g_iView
  | g_szTime
  | g_szDate
  | g_iTimerState
  | g_tTimerStart
  | g_szTimer
deriving DecidableEq

/-- One step of a handler's trace: a write of a module-level variable or a
call into the toolkit. -/
inductive Act where
  | write (v : Var)
  | layer_set_hidden (l : LayerId) (hidden : Bool)
  | text_layer_set_text (l : LayerId) (t : TextRef)
  | app_log
deriving DecidableEq

/-- The part of a text layer the program touches. -/
structure TextLayer where
  hidden : Bool
  text : TextRef
deriving DecidableEq

/-- The module-level variables of `basic_face.c`, the text layers the three
pointers refer to, and the trace of writes and toolkit calls so far. -/
structure State where
  g_iBatteryCharging : Int
  g_iView : Int
  g_pTimeLayer : TextLayer
  g_pDateLayer : TextLayer
  g_szTime : List Char
  g_szDate : List Char
  g_pTimerLayer : TextLayer
  g_iTimerState : Int
  g_tTimerStart : Int
  g_szTimer : List Char
  trace : List Act
deriving DecidableEq

/-- Append one step to the trace. -/
def emit (a : Act) (s : State) : State :=
  { s with trace := s.trace ++ [a] }

/-- Toolkit call `layer_set_hidden(text_layer_get_layer(l), hidden)`. -/
def layer_set_hidden (l : LayerId) (hidden : Bool) (s : State) : State :=
  let s := emit (Act.layer_set_hidden l hidden) s
  match l with
  | LayerId.g_pTimeLayer => { s with g_pTimeLayer := { s.g_pTimeLayer with hidden := hidden } }
  | LayerId.g_pDateLayer => { s with g_pDateLayer := { s.g_pDateLayer with hidden := hidden } }
  | LayerId.g_pTimerLayer => { s with g_pTimerLayer := { s.g_pTimerLayer with hidden := hidden } }

/-- Toolkit call `text_layer_set_text(l, t)`. -/
def text_layer_set_text (l : LayerId) (t : TextRef) (s : State) : State :=
  let s := emit (Act.text_layer_set_text l t) s
  match l with
  | LayerId.g_pTimeLayer => { s with g_pTimeLayer := { s.g_pTimeLayer with text := t } }
  | LayerId.g_pDateLayer => { s with g_pDateLayer := { s.g_pDateLayer with text := t } }
  | LayerId.g_pTimerLayer => { s with g_pTimerLayer := { s.g_pTimerLayer with text := t } }

/-- The call `APP_LOG(...)`: a debug message, no effect on the variables. -/
def APP_LOG (s : State) : State := emit Act.app_log s

/-- The layer a pointer variable refers to. -/
def State.layer (s : State) : LayerId → TextLayer
  | LayerId.g_pTimeLayer => s.g_pTimeLayer
  | LayerId.g_pDateLayer => s.g_pDateLayer
  | LayerId.g_pTimerLayer => s.g_pTimerLayer

/-- The characters a text pointer currently refers to. -/
def State.deref (s : State) : TextRef → List Char
  | TextRef.literal t => t
  | TextRef.g_szTime => s.g_szTime
  | TextRef.g_szDate => s.g_szDate
  | TextRef.g_szTimer => s.g_szTimer

/-- The text a layer shows. -/
def State.shown (s : State) (l : LayerId) : List Char := s.deref (s.layer l).text

/-- Assignment to `g_iView`. -/
def set_g_iView (v : Int) (s : State) : State :=
  emit (Act.write Var.g_iView) { s with g_iView := v }

/-- Assignment to `g_iTimerState`. -/
def set_g_iTimerState (v : Int) (s : State) : State :=
  emit (Act.write Var.g_iTimerState) { s with g_iTimerState := v }

/-- Assignment to `g_tTimerStart` (by `time(&g_tTimerStart)`). -/
def set_g_tTimerStart (v : Int) (s : State) : State :=
  emit (Act.write Var.g_tTimerStart) { s with g_tTimerStart := v }

/-- Assignment to `g_iBatteryCharging`. -/
def set_g_iBatteryCharging (v : Int) (s : State) : State :=
  emit (Act.write Var.g_iBatteryCharging) { s with g_iBatteryCharging := v }

/-- The buffer `g_szTimer` is rewritten. -/
def set_g_szTimer (v : List Char) (s : State) : State :=
  emit (Act.write Var.g_szTimer) { s with g_szTimer := v }

/-- The buffer `g_szTime` is rewritten. -/
def set_g_szTime (v : List Char) (s : State) : State :=
  emit (Act.write Var.g_szTime) { s with g_szTime := v }

/-- The buffer `g_szDate` is rewritten. -/
def set_g_szDate (v : List Char) (s : State) : State :=
  emit (Act.write Var.g_szDate) { s with g_szDate := v }

/-! ## View switching (lines 38-64, 111-131) -/

/-- Function `close_view`: hide the layers of the current view. -/
def close_view (s : State) : State :=
  if s.g_iView = MAIN_VIEW then
    layer_set_hidden LayerId.g_pDateLayer true (layer_set_hidden LayerId.g_pTimeLayer true s)
  else if s.g_iView = TIMER_VIEW then
    layer_set_hidden LayerId.g_pTimerLayer true s
  else s

/-- Function `open_view`: show the layers of the current view. -/
def open_view (s : State) : State :=
  let s := APP_LOG s
  if s.g_iView = MAIN_VIEW then
    layer_set_hidden LayerId.g_pDateLayer false (layer_set_hidden LayerId.g_pTimeLayer false s)
  else if s.g_iView = TIMER_VIEW then
    layer_set_hidden LayerId.g_pTimerLayer false s
  else s

/-- Handler `up_click_handler`: previous view, wrapping below zero. -/
def up_click_handler (s : State) : State :=
  let s := close_view s
  let s := set_g_iView (s.g_iView - 1) s
  let s := if s.g_iView < 0 then set_g_iView (NUM_VIEWS - 1) s else s
  open_view s

/-- Handler `down_click_handler`: next view, wrapping at `NUM_VIEWS`. -/
def down_click_handler (s : State) : State :=
  let s := close_view s
  let s := set_g_iView (s.g_iView + 1) s
  let s := if s.g_iView ≥ NUM_VIEWS then set_g_iView 0 s else s
  open_view s

/-! ## The timer (lines 66-109) -/

/-- Decimal digits of a natural number, as `printf` writes them. -/
def decimal (n : Nat) : List Char := Nat.toDigits 10 n

/-- The conversion `%02d`: at least two characters, padded with zeros; a
negative number carries its sign and needs no padding. -/
def fmt02d (n : Int) : List Char :=
  if n < 0 then '-' :: decimal n.natAbs
  else if (decimal n.natAbs).length < 2 then '0' :: decimal n.natAbs
  else decimal n.natAbs

/-- The full expansion of `"%02d:%02d:%02d"`. -/
def fmtTimer (h m sec : Int) : List Char :=
  fmt02d h ++ ':' :: (fmt02d m ++ ':' :: fmt02d sec)

/-- The call `snprintf(buf, size, ...)`: at most `size - 1` characters of the
expansion reach the buffer. -/
def snprintf (size : Nat) (expansion : List Char) : List Char :=
  expansion.take (size - 1)

/-- The value of `difftime(end, start)` as a `double`. -/
def difftime (P : Platform) (tEnd tStart : Int) : ℚ := P.fl ((tEnd : ℚ) - tStart)

/-- Line 74: `iHours = dTimerSeconds / (60 * 60)`. -/
def iHours (P : Platform) (dTimerSeconds : ℚ) : Int :=
  truncToInt (P.fl (dTimerSeconds / ((60 * 60 : Int) : ℚ)))

/-- Line 75: `iMinutes = (dTimerSeconds / 60) - (iHours * 60)`. -/
def iMinutes (P : Platform) (dTimerSeconds : ℚ) : Int :=
  truncToInt (P.fl (P.fl (dTimerSeconds / 60) - ((iHours P dTimerSeconds * 60 : Int) : ℚ)))

/-- Line 76: `iSeconds = dTimerSeconds - (iHours * 60 * 60) - (iMinutes * 60)`. -/
def iSeconds (P : Platform) (dTimerSeconds : ℚ) : Int :=
  truncToInt (P.fl (P.fl (dTimerSeconds - ((iHours P dTimerSeconds * 60 * 60 : Int) : ℚ))
    - ((iMinutes P dTimerSeconds * 60 : Int) : ℚ)))

/-- Every `int`-typed value of lines 74-76 fits in 32 bits (outside of this
the C arithmetic has no defined result). -/
def timerArithDefined (P : Platform) (dTimerSeconds : ℚ) : Prop :=
  inInt32 (iHours P dTimerSeconds) ∧
  inInt32 (iHours P dTimerSeconds * 60) ∧
  inInt32 (iMinutes P dTimerSeconds) ∧
  inInt32 (iHours P dTimerSeconds * 60 * 60) ∧
  inInt32 (iMinutes P dTimerSeconds * 60) ∧
  inInt32 (iSeconds P dTimerSeconds)

/-- The text `snprintf` leaves in `g_szTimer` for an elapsed time. -/
def timerText (P : Platform) (dTimerSeconds : ℚ) : List Char :=
  snprintf 16 (fmtTimer (iHours P dTimerSeconds) (iMinutes P dTimerSeconds)
    (iSeconds P dTimerSeconds))

/-- Function `update_timer`, with `now` the value `time()` returns. -/
def update_timer (P : Platform) (now : Int) (s : State) : State :=
  if s.g_iView = TIMER_VIEW ∧ s.g_iTimerState = TIMER_RUNNING then
    let dTimerSeconds := difftime P now s.g_tTimerStart
    let s := set_g_szTimer (timerText P dTimerSeconds) s
    text_layer_set_text LayerId.g_pTimerLayer TextRef.g_szTimer s
  else s

/-- Function `timer_toggle`, with `now` the value `time()` returns. -/
def timer_toggle (P : Platform) (now : Int) (s : State) : State :=
  if s.g_iTimerState = TIMER_RESET then
    let s := APP_LOG s
    let s := set_g_tTimerStart now s
    set_g_iTimerState TIMER_RUNNING s
  else if s.g_iTimerState = TIMER_RUNNING then
    let s := APP_LOG s
    let s := update_timer P now s
    set_g_iTimerState TIMER_IDLE s
  else if s.g_iTimerState = TIMER_IDLE then
    let s := APP_LOG s
    let s := text_layer_set_text LayerId.g_pTimerLayer (TextRef.literal "00:00:00".data) s
    set_g_iTimerState TIMER_RESET s
  else s

/-- Handler `select_click_handler`. -/
def select_click_handler (P : Platform) (now : Int) (s : State) : State :=
  if s.g_iView = TIMER_VIEW then timer_toggle P now s else s

/-! ## Clock text and services (lines 140-168) -/

/-- Function `update_time`, with `is24h` the value `clock_is_24h_style()`
returns. -/
def update_time (P : Platform) (is24h : Bool) (tick_time : Tm) (s : State) : State :=
  let s :=
    if is24h then set_g_szTime (P.strftime 16 "%H:%M:%S".data tick_time) s
    else set_g_szTime (P.strftime 16 "%I:%M:%S %p".data tick_time) s
  let s := text_layer_set_text LayerId.g_pTimeLayer TextRef.g_szTime s
  let s := set_g_szDate (P.strftime 16 "%B %d".data tick_time) s
  text_layer_set_text LayerId.g_pDateLayer TextRef.g_szDate s

/-- Handler `handle_tick`, called from the time service. -/
def handle_tick (P : Platform) (is24h : Bool) (now : Int) (tick_time : Tm) (s : State) : State :=
  update_timer P now (update_time P is24h tick_time s)

/-- The argument of a battery notification, `BatteryChargeState`. -/
structure BatteryChargeState where
  charge_percent : Int
  is_charging : Int
  is_plugged : Int
deriving DecidableEq

/-- Handler `handle_battery_state`, called from the battery service. -/
def handle_battery_state (charge_state : BatteryChargeState) (s : State) : State :=
  APP_LOG (set_g_iBatteryCharging charge_state.is_charging s)

/-! ## Drawing (lines 170-279) -/

/-- A point, `GPoint`, with `int16_t` coordinates. -/
structure GPoint where
  x : Int
  y : Int
deriving DecidableEq

/-- A size, `GSize`, with `int16_t` fields. -/
structure GSize where
  w : Int
  h : Int
deriving DecidableEq

/-- A rectangle, `GRect`. -/
structure GRect where
  origin : GPoint
  size : GSize
deriving DecidableEq

/-- The colours the program uses. -/
inductive GColor where
  | GColorBlack
  | GColorWhite
deriving DecidableEq

/-- The corner masks the program uses. -/
inductive GCornerMask where
  | GCornersAll
deriving DecidableEq

/-- The bitmaps the program holds. -/
inductive Bitmap where
  | g_imgCharging
deriving DecidableEq

/-- A call into the graphics context. -/
inductive GCall where
  | graphics_context_set_fill_color (c : GColor)
  | graphics_context_set_stroke_color (c : GColor)
  | graphics_fill_rect (r : GRect) (corner_radius : Int) (mask : GCornerMask)
  | graphics_fill_circle (p : GPoint) (radius : Int)
  | graphics_draw_line (p0 p1 : GPoint)
  | graphics_draw_bitmap_in_rect (b : Bitmap) (r : GRect)
deriving DecidableEq

/-- Function `draw_info_bar`: the charging icon. -/
def draw_info_bar (bounds : GRect) (s : State) : List GCall :=
  if s.g_iBatteryCharging ≠ 0 then
    [GCall.graphics_draw_bitmap_in_rect Bitmap.g_imgCharging
      { origin := { x := toInt16 (bounds.size.w - 42), y := 0 }, size := { w := 42, h := 28 } }]
  else []

/-- Function `draw_main_clock`: the two rules of the main view. -/
def draw_main_clock (bounds : GRect) : List GCall :=
  [ GCall.graphics_context_set_fill_color GColor.GColorWhite,
    GCall.graphics_context_set_stroke_color GColor.GColorWhite,
    GCall.graphics_fill_rect
      { origin := { x := 0, y := 54 }, size := { w := bounds.size.w, h := 2 } } 0
      GCornerMask.GCornersAll,
    GCall.graphics_fill_rect
      { origin := { x := 0, y := 118 }, size := { w := bounds.size.w, h := 2 } } 0
      GCornerMask.GCornersAll ]

/-- Function `polar_to_x`: `r * sin_lookup(theta) / TRIG_MAX_RATIO` returned
as `uint16_t`. -/
def polar_to_x (P : Platform) (theta : Int) (r : Int) : Int :=
  toUInt16 ((r * P.sin_lookup theta).tdiv P.TRIG_MAX_RATIO)

/-- Function `polar_to_y`: `r * -cos_lookup(theta) / TRIG_MAX_RATIO` returned
as `uint16_t`. -/
def polar_to_y (P : Platform) (theta : Int) (r : Int) : Int :=
  toUInt16 ((r * -P.cos_lookup theta).tdiv P.TRIG_MAX_RATIO)

/-- Function `remap_x_to_origin`: `(pBounds->size.w / 2) + x` returned as
`uint16_t`. -/
def remap_x_to_origin (bounds : GRect) (x : Int) : Int :=
  toUInt16 (bounds.size.w.tdiv 2 + x)

/-- Function `remap_y_to_origin`: `(pBounds->size.h / 2) + y` returned as
`uint16_t`. -/
def remap_y_to_origin (bounds : GRect) (y : Int) : Int :=
  toUInt16 (bounds.size.h.tdiv 2 + y)

/-- Line 226: the angle of hour mark `i`, `TRIG_MAX_ANGLE * (i / 12.0)` as
`int32_t`. -/
def mark_theta (P : Platform) (i : Nat) : Int :=
  truncToInt (P.fl ((TRIG_MAX_ANGLE : ℚ) * P.fl ((i : ℚ) / 12)))

/-- Line 247: the angle of the hour hand. -/
def hour_theta (curr_time : Tm) : Int :=
  (TRIG_MAX_ANGLE * (((curr_time.tm_hour.tmod 12) * 60) + curr_time.tm_min)).tdiv (12 * 60)

/-- Line 257: the angle of the minute hand. -/
def minute_theta (curr_time : Tm) : Int :=
  (TRIG_MAX_ANGLE * curr_time.tm_min).tdiv 60

/-- The point `(GPoint) { .x = px, .y = py }` of two `uint16_t` values. -/
def mkPoint (px py : Int) : GPoint := { x := toInt16 px, y := toInt16 py }

/-- Function `draw_analog_clock`, with `curr_time` the value `localtime`
returns for the current time. -/
def draw_analog_clock (P : Platform) (bounds : GRect) (curr_time : Tm) : List GCall :=
  let r_base := toUInt16 (bounds.size.w.tdiv 2 - 8)
  let ox := remap_x_to_origin bounds 0
  let oy := remap_y_to_origin bounds 0
  let hr := toUInt16 (bounds.size.w.tdiv 4 - 4)
  let hx := remap_x_to_origin bounds (polar_to_x P (hour_theta curr_time) hr)
  let hy := remap_y_to_origin bounds (polar_to_y P (hour_theta curr_time) hr)
  let mr := toUInt16 (bounds.size.w.tdiv 2 - 16)
  let mx := remap_x_to_origin bounds (polar_to_x P (minute_theta curr_time) mr)
  let my := remap_y_to_origin bounds (polar_to_y P (minute_theta curr_time) mr)
  [ GCall.graphics_context_set_fill_color GColor.GColorWhite,
    GCall.graphics_context_set_stroke_color GColor.GColorWhite ]
  ++ (List.range 12).map (fun i =>
      GCall.graphics_fill_circle
        (mkPoint (remap_x_to_origin bounds (polar_to_x P (mark_theta P i) r_base))
          (remap_y_to_origin bounds (polar_to_y P (mark_theta P i) r_base))) 4)
  ++ [ GCall.graphics_fill_circle (mkPoint ox oy) 1,
       GCall.graphics_draw_line (mkPoint ox oy) (mkPoint hx hy),
       GCall.graphics_draw_line (mkPoint ox oy) (mkPoint mx my) ]

/-- Function `face_draw`, the layer drawing handler; `bounds` is what
`layer_get_bounds` returns. -/
def face_draw (P : Platform) (bounds : GRect) (curr_time : Tm) (s : State) : List GCall :=
  draw_info_bar bounds s ++
    (if s.g_iView = MAIN_VIEW then draw_main_clock bounds
     else if s.g_iView = ANALOG_VIEW then draw_analog_clock P bounds curr_time
     else [])

/-- Whether a graphics call is `graphics_fill_circle`. -/
def GCall.isFillCircle : GCall → Bool
  | GCall.graphics_fill_circle _ _ => true
  | _ => false

/-- Whether a graphics call is `graphics_draw_line`. -/
def GCall.isDrawLine : GCall → Bool
  | GCall.graphics_draw_line _ _ => true
  | _ => false

/-- Whether a graphics call is `graphics_draw_bitmap_in_rect`. -/
def GCall.isDrawBitmap : GCall → Bool
  | GCall.graphics_draw_bitmap_in_rect _ _ => true
  | _ => false

/-! ## Start-up (lines 4-36, 281-333) -/

/-- The module-level initialisers.  The three layer pointers are `NULL` until
`window_load` runs; the placeholder layers stand for that. -/
def initial : State :=
  { g_iBatteryCharging := 0
    g_iView := MAIN_VIEW
    g_pTimeLayer := { hidden := true, text := TextRef.literal [] }
    g_pDateLayer := { hidden := true, text := TextRef.literal [] }
    g_szTime := []
    g_szDate := []
    g_pTimerLayer := { hidden := true, text := TextRef.literal [] }
    g_iTimerState := TIMER_RESET
    g_tTimerStart := 0
    g_szTimer := []
    trace := [] }

/-- A layer as `text_layer_create` returns it: shown, without text. -/
def text_layer_create : TextLayer := { hidden := false, text := TextRef.literal [] }

/-- Function `window_load`: the three text layers are created and the timer
layer is hidden. -/
def window_load (s : State) : State :=
  let s := APP_LOG s
  let s := { s with g_pTimeLayer := text_layer_create }
  let s := text_layer_set_text LayerId.g_pTimeLayer (TextRef.literal "Time".data) s
  let s := { s with g_pDateLayer := text_layer_create }
  let s := text_layer_set_text LayerId.g_pDateLayer (TextRef.literal "The Date".data) s
  let s := { s with g_pTimerLayer := text_layer_create }
  let s := text_layer_set_text LayerId.g_pTimerLayer (TextRef.literal "00:00:00".data) s
  layer_set_hidden LayerId.g_pTimerLayer true s

/-! ## The event loop -/

/-- What the host's event loop delivers to the program. -/
inductive Event where
  | select (now : Int)
  | up
  | down
  | tick (is24h : Bool) (now : Int) (tick_time : Tm)
  | battery (charge_state : BatteryChargeState)
deriving DecidableEq

/-- Dispatch of one event to its handler. -/
def handle (P : Platform) (s : State) : Event → State
  | Event.select now => select_click_handler P now s
  | Event.up => up_click_handler s
  | Event.down => down_click_handler s
  | Event.tick is24h now tick_time => handle_tick P is24h now tick_time s
  | Event.battery charge_state => handle_battery_state charge_state s

/-- The state after a sequence of events. -/
def run (P : Platform) (s : State) (events : List Event) : State :=
  events.foldl (handle P) s

/-- The `is_charging` field of the most recent battery notification among the
events, and `0` when there is none. -/
def lastCharging (events : List Event) : Int :=
  events.foldl (fun acc e => match e with
    | Event.battery charge_state => charge_state.is_charging
    | _ => acc) 0

/-- A sample platform: binary64 rounding, `TRIG_MAX_RATIO = 0xffff`,
trigonometric tables that take their extreme values at the four axis angles
and are zero elsewhere, and a `strftime` that writes nothing. -/
def samplePlatform : Platform :=
  { fl := roundBinary64
    sin_lookup := fun theta =>
      if theta % 65536 = 16384 then 65535 else if theta % 65536 = 49152 then -65535 else 0
    cos_lookup := fun theta =>
      if theta % 65536 = 0 then 65535 else if theta % 65536 = 32768 then -65535 else 0
    TRIG_MAX_RATIO := 65535
    strftime := fun _ _ _ => [] }

/-- The 144 x 168 screen of the watch as layer bounds. -/
def sampleBounds : GRect :=
  { origin := { x := 0, y := 0 }, size := { w := 144, h := 168 } }

/-- A quarter past three in the morning. -/
def sampleTime : Tm :=
  { tm_sec := 0, tm_min := 15, tm_hour := 3, tm_mday := 1, tm_mon := 0, tm_year := 100 }

/-- A battery notification that reports charging. -/
def sampleCharging : BatteryChargeState :=
  { charge_percent := 50, is_charging := 1, is_plugged := 1 }

/-! ## Predicates used by the statements -/

/-- The view index is one of the three views. -/
def ValidView (s : State) : Prop :=
  s.g_iView = MAIN_VIEW ∨ s.g_iView = TIMER_VIEW ∨ s.g_iView = ANALOG_VIEW

/-- The timer state is one of the three timer states. -/
def ValidTimer (s : State) : Prop :=
  s.g_iTimerState = TIMER_RESET ∨ s.g_iTimerState = TIMER_RUNNING ∨
    s.g_iTimerState = TIMER_IDLE

/-! ## Traces of one handler invocation -/

/-- A toolkit call that requests a redraw.  The program never calls
`layer_mark_dirty`; hiding or showing a layer and setting a layer's text are
its only such calls. -/
def Act.isRedraw : Act → Bool
  | Act.layer_set_hidden _ _ => true
  | Act.text_layer_set_text _ _ => true
  | _ => false

/-- A write of a module-level variable. -/
def Act.isWrite : Act → Bool
  | Act.write _ => true
  | _ => false

/-- Every write in the trace has a redraw request later in the trace. -/
def redrawAfterWrites : List Act → Bool
  | [] => true
  | a :: rest => (!a.isWrite || rest.any Act.isRedraw) && redrawAfterWrites rest

/-- The trace of one invocation of a handler from a state. -/
def invocation (handler : State → State) (s : State) : List Act :=
  (handler { s with trace := [] }).trace

/-- Layer visibility matches the view: the time and date layers are shown
exactly in the main view, the timer layer exactly in the timer view. -/
def LayersTrackView (s : State) : Prop :=
  (s.g_pTimeLayer.hidden = false ↔ s.g_iView = MAIN_VIEW) ∧
  (s.g_pDateLayer.hidden = false ↔ s.g_iView = MAIN_VIEW) ∧
  (s.g_pTimerLayer.hidden = false ↔ s.g_iView = TIMER_VIEW)

/-- The timer layer's text pointer refers to the buffer `g_szTimer` or to the
literal `"00:00:00"`. -/
def TimerTextOwn (s : State) : Prop :=
  s.g_pTimerLayer.text = TextRef.g_szTimer ∨
    s.g_pTimerLayer.text = TextRef.literal "00:00:00".data

/-- The events of a sequence of ticks, each with its clock style, current
time and broken-down time. -/
def tickEvents (ticks : List (Bool × Int × Tm)) : List Event :=
  ticks.map (fun t => Event.tick t.1 t.2.1 t.2.2)

/-! # Theorems -/

/-! ## Frame lemmas: what each operation leaves alone -/

section Frame

variable (P : Platform)

@[simp] theorem emit_fields (a : Act) (s : State) :
    (emit a s).g_iView = s.g_iView ∧ (emit a s).g_iTimerState = s.g_iTimerState ∧
    (emit a s).g_tTimerStart = s.g_tTimerStart ∧ (emit a s).g_szTimer = s.g_szTimer ∧
    (emit a s).g_iBatteryCharging = s.g_iBatteryCharging ∧
    (emit a s).g_pTimeLayer = s.g_pTimeLayer ∧ (emit a s).g_pDateLayer = s.g_pDateLayer ∧
    (emit a s).g_pTimerLayer = s.g_pTimerLayer := by
  simp [emit]

theorem close_view_frame (s : State) :
    (close_view s).g_iView = s.g_iView ∧ (close_view s).g_iTimerState = s.g_iTimerState ∧
    (close_view s).g_tTimerStart = s.g_tTimerStart ∧ (close_view s).g_szTimer = s.g_szTimer ∧
    (close_view s).g_iBatteryCharging = s.g_iBatteryCharging := by
  unfold close_view
  split_ifs <;> simp [layer_set_hidden, emit]

theorem open_view_frame (s : State) :
    (open_view s).g_iView = s.g_iView ∧ (open_view s).g_iTimerState = s.g_iTimerState ∧
    (open_view s).g_tTimerStart = s.g_tTimerStart ∧ (open_view s).g_szTimer = s.g_szTimer ∧
    (open_view s).g_iBatteryCharging = s.g_iBatteryCharging := by
  unfold open_view
  simp only [APP_LOG]
  split_ifs <;> simp [layer_set_hidden, emit]

theorem up_click_handler_view (s : State) :
    (up_click_handler s).g_iView =
      if s.g_iView - 1 < 0 then NUM_VIEWS - 1 else s.g_iView - 1 := by
  unfold up_click_handler
  simp only [(open_view_frame _).1]
  split_ifs with h1 h2 h2 <;>
    simp [set_g_iView, emit, (close_view_frame s).1] at h1 h2 ⊢ <;> omega

theorem down_click_handler_view (s : State) :
    (down_click_handler s).g_iView =
      if s.g_iView + 1 ≥ NUM_VIEWS then 0 else s.g_iView + 1 := by
  unfold down_click_handler
  simp only [(open_view_frame _).1]
  split_ifs with h1 h2 h2 <;>
    simp [set_g_iView, emit, (close_view_frame s).1] at h1 h2 ⊢ <;> omega

end Frame

section Frame2

variable (P : Platform)

theorem update_timer_frame (now : Int) (s : State) :
    (update_timer P now s).g_iView = s.g_iView ∧
    (update_timer P now s).g_iTimerState = s.g_iTimerState ∧
    (update_timer P now s).g_tTimerStart = s.g_tTimerStart ∧
    (update_timer P now s).g_iBatteryCharging = s.g_iBatteryCharging ∧
    (update_timer P now s).g_pTimeLayer = s.g_pTimeLayer ∧
    (update_timer P now s).g_pDateLayer = s.g_pDateLayer ∧
    (update_timer P now s).g_pTimerLayer.hidden = s.g_pTimerLayer.hidden := by
  unfold update_timer
  split_ifs <;> simp [text_layer_set_text, set_g_szTimer, emit]

theorem timer_toggle_frame (now : Int) (s : State) :
    (timer_toggle P now s).g_iView = s.g_iView ∧
    (timer_toggle P now s).g_iBatteryCharging = s.g_iBatteryCharging ∧
    (timer_toggle P now s).g_pTimeLayer = s.g_pTimeLayer ∧
    (timer_toggle P now s).g_pDateLayer = s.g_pDateLayer ∧
    (timer_toggle P now s).g_pTimerLayer.hidden = s.g_pTimerLayer.hidden := by
  unfold timer_toggle
  split_ifs <;>
    simp [text_layer_set_text, set_g_iTimerState, set_g_tTimerStart, emit, APP_LOG,
      update_timer_frame]

theorem select_click_handler_frame (now : Int) (s : State) :
    (select_click_handler P now s).g_iView = s.g_iView ∧
    (select_click_handler P now s).g_iBatteryCharging = s.g_iBatteryCharging ∧
    (select_click_handler P now s).g_pTimeLayer = s.g_pTimeLayer ∧
    (select_click_handler P now s).g_pDateLayer = s.g_pDateLayer ∧
    (select_click_handler P now s).g_pTimerLayer.hidden = s.g_pTimerLayer.hidden := by
  unfold select_click_handler
  split_ifs
  · exact timer_toggle_frame P now s
  · simp

theorem update_time_frame (is24h : Bool) (tick_time : Tm) (s : State) :
    (update_time P is24h tick_time s).g_iView = s.g_iView ∧
    (update_time P is24h tick_time s).g_iTimerState = s.g_iTimerState ∧
    (update_time P is24h tick_time s).g_tTimerStart = s.g_tTimerStart ∧
    (update_time P is24h tick_time s).g_iBatteryCharging = s.g_iBatteryCharging ∧
    (update_time P is24h tick_time s).g_szTimer = s.g_szTimer ∧
    (update_time P is24h tick_time s).g_pTimerLayer = s.g_pTimerLayer ∧
    (update_time P is24h tick_time s).g_pTimeLayer.hidden = s.g_pTimeLayer.hidden ∧
    (update_time P is24h tick_time s).g_pDateLayer.hidden = s.g_pDateLayer.hidden := by
  unfold update_time
  cases is24h <;> simp [text_layer_set_text, set_g_szTime, set_g_szDate, emit]

theorem handle_tick_frame (is24h : Bool) (now : Int) (tick_time : Tm) (s : State) :
    (handle_tick P is24h now tick_time s).g_iView = s.g_iView ∧
    (handle_tick P is24h now tick_time s).g_iTimerState = s.g_iTimerState ∧
    (handle_tick P is24h now tick_time s).g_tTimerStart = s.g_tTimerStart ∧
    (handle_tick P is24h now tick_time s).g_iBatteryCharging = s.g_iBatteryCharging ∧
    (handle_tick P is24h now tick_time s).g_pTimeLayer.hidden = s.g_pTimeLayer.hidden ∧
    (handle_tick P is24h now tick_time s).g_pDateLayer.hidden = s.g_pDateLayer.hidden ∧
    (handle_tick P is24h now tick_time s).g_pTimerLayer.hidden = s.g_pTimerLayer.hidden := by
  unfold handle_tick
  have h1 := update_timer_frame P now (update_time P is24h tick_time s)
  have h2 := update_time_frame P is24h tick_time s
  obtain ⟨a1, a2, a3, a4, a5, a6, a7⟩ := h1
  obtain ⟨b1, b2, b3, b4, b5, b6, b7, b8⟩ := h2
  refine ⟨?_, ?_, ?_, ?_, ?_, ?_, ?_⟩
  · rw [a1, b1]
  · rw [a2, b2]
  · rw [a3, b3]
  · rw [a4, b4]
  · rw [a5, b7]
  · rw [a6, b8]
  · rw [a7, b6]

theorem handle_battery_state_frame (c : BatteryChargeState) (s : State) :
    (handle_battery_state c s).g_iView = s.g_iView ∧
    (handle_battery_state c s).g_iTimerState = s.g_iTimerState ∧
    (handle_battery_state c s).g_tTimerStart = s.g_tTimerStart ∧
    (handle_battery_state c s).g_szTimer = s.g_szTimer ∧
    (handle_battery_state c s).g_pTimeLayer = s.g_pTimeLayer ∧
    (handle_battery_state c s).g_pDateLayer = s.g_pDateLayer ∧
    (handle_battery_state c s).g_pTimerLayer = s.g_pTimerLayer ∧
    (handle_battery_state c s).g_iBatteryCharging = c.is_charging := by
  simp [handle_battery_state, APP_LOG, set_g_iBatteryCharging, emit]

theorem handle_validView (s : State) (e : Event) (hv : ValidView s) :
    ValidView (handle P s e) := by
  unfold ValidView at hv ⊢
  cases e with
  | select now => simp only [handle, (select_click_handler_frame P now s).1]; exact hv
  | up =>
    simp only [handle, up_click_handler_view, MAIN_VIEW, TIMER_VIEW, ANALOG_VIEW, NUM_VIEWS] at hv ⊢
    split_ifs <;> omega
  | down =>
    simp only [handle, down_click_handler_view, MAIN_VIEW, TIMER_VIEW, ANALOG_VIEW, NUM_VIEWS] at hv ⊢
    split_ifs <;> omega
  | tick is24h now tick_time =>
    simp only [handle, (handle_tick_frame P is24h now tick_time s).1]; exact hv
  | battery c => simp only [handle, (handle_battery_state_frame c s).1]; exact hv

theorem run_validView (events : List Event) (s : State) (hv : ValidView s) :
    ValidView (run P s events) := by
  induction events generalizing s with
  | nil => exact hv
  | cons e rest ih => exact ih (handle P s e) (handle_validView P s e hv)

end Frame2

/-- C1. View switching is a ring with three members: from a view index in
{MAIN_VIEW, TIMER_VIEW, ANALOG_VIEW}, the down handler leaves (v + 1) mod 3 and
the up handler (v + 2) mod 3 in g_iView; up and down undo each other on the
view index, three presses of the same button return to the starting view, and
after any sequence of events the view index is still one of the three. -/
theorem view_switching_ring (P : Platform) (s : State) (events : List Event)
    (hv : s.g_iView = MAIN_VIEW ∨ s.g_iView = TIMER_VIEW ∨ s.g_iView = ANALOG_VIEW) :
    (down_click_handler s).g_iView = (s.g_iView + 1) % 3 ∧
    (up_click_handler s).g_iView = (s.g_iView + 2) % 3 ∧
    (up_click_handler (down_click_handler s)).g_iView = s.g_iView ∧
    (down_click_handler (up_click_handler s)).g_iView = s.g_iView ∧
    (down_click_handler (down_click_handler (down_click_handler s))).g_iView = s.g_iView ∧
    (up_click_handler (up_click_handler (up_click_handler s))).g_iView = s.g_iView ∧
    ((run P s events).g_iView = MAIN_VIEW ∨ (run P s events).g_iView = TIMER_VIEW ∨
      (run P s events).g_iView = ANALOG_VIEW) := by
  refine ⟨?_, ?_, ?_, ?_, ?_, ?_, run_validView P events s hv⟩ <;>
    simp only [up_click_handler_view, down_click_handler_view, MAIN_VIEW, TIMER_VIEW,
      ANALOG_VIEW, NUM_VIEWS] at hv ⊢ <;>
    rcases hv with h | h | h <;> rw [h] <;> decide

/-- C1 at the state left by start-up, with an up, a select and two down
presses as the sequence of events: down leads to the timer view, up to the
analog view. -/
theorem view_switching_ring_witness :
    (window_load initial).g_iView = MAIN_VIEW ∧
    (down_click_handler (window_load initial)).g_iView = TIMER_VIEW ∧
    (up_click_handler (window_load initial)).g_iView = ANALOG_VIEW ∧
    (up_click_handler (down_click_handler (window_load initial))).g_iView
      = (window_load initial).g_iView :=
  ⟨by decide,
    (view_switching_ring samplePlatform (window_load initial)
      [Event.up, Event.select 5, Event.down, Event.down] (Or.inl (by decide))).1.trans
      (by decide),
    (view_switching_ring samplePlatform (window_load initial)
      [Event.up, Event.select 5, Event.down, Event.down] (Or.inl (by decide))).2.1.trans
      (by decide),
    (view_switching_ring samplePlatform (window_load initial)
      [Event.up, Event.select 5, Event.down, Event.down] (Or.inl (by decide))).2.2.1⟩

section TimerMachine

variable (P : Platform)

theorem timer_toggle_state (now : Int) (s : State) :
    (timer_toggle P now s).g_iTimerState =
      if s.g_iTimerState = TIMER_RESET then TIMER_RUNNING
      else if s.g_iTimerState = TIMER_RUNNING then TIMER_IDLE
      else if s.g_iTimerState = TIMER_IDLE then TIMER_RESET
      else s.g_iTimerState := by
  unfold timer_toggle
  split_ifs <;> simp [set_g_iTimerState, emit]

theorem select_click_handler_state (now : Int) (s : State) :
    (select_click_handler P now s).g_iTimerState =
      if s.g_iView = TIMER_VIEW then
        if s.g_iTimerState = TIMER_RESET then TIMER_RUNNING
        else if s.g_iTimerState = TIMER_RUNNING then TIMER_IDLE
        else if s.g_iTimerState = TIMER_IDLE then TIMER_RESET
        else s.g_iTimerState
      else s.g_iTimerState := by
  unfold select_click_handler
  split_ifs <;> simp_all [timer_toggle_state]

theorem up_click_handler_timer (s : State) :
    (up_click_handler s).g_iTimerState = s.g_iTimerState ∧
    (up_click_handler s).g_tTimerStart = s.g_tTimerStart ∧
    (up_click_handler s).g_szTimer = s.g_szTimer ∧
    (up_click_handler s).g_iBatteryCharging = s.g_iBatteryCharging := by
  unfold up_click_handler
  have hc := close_view_frame s
  simp only [open_view_frame]
  split_ifs <;> simp [set_g_iView, emit, hc]

theorem down_click_handler_timer (s : State) :
    (down_click_handler s).g_iTimerState = s.g_iTimerState ∧
    (down_click_handler s).g_tTimerStart = s.g_tTimerStart ∧
    (down_click_handler s).g_szTimer = s.g_szTimer ∧
    (down_click_handler s).g_iBatteryCharging = s.g_iBatteryCharging := by
  unfold down_click_handler
  have hc := close_view_frame s
  simp only [open_view_frame]
  split_ifs <;> simp [set_g_iView, emit, hc]

theorem handle_validTimer (s : State) (e : Event) (hv : ValidTimer s) :
    ValidTimer (handle P s e) := by
  unfold ValidTimer at hv ⊢
  cases e with
  | select now =>
    simp only [handle, select_click_handler_state, TIMER_RESET, TIMER_RUNNING, TIMER_IDLE] at hv ⊢
    split_ifs <;> omega
  | up => simp only [handle, (up_click_handler_timer s).1]; exact hv
  | down => simp only [handle, (down_click_handler_timer s).1]; exact hv
  | tick is24h now tick_time =>
    simp only [handle, (handle_tick_frame P is24h now tick_time s).2.1]; exact hv
  | battery c => simp only [handle, (handle_battery_state_frame c s).2.1]; exact hv

theorem run_validTimer (events : List Event) (s : State) (hv : ValidTimer s) :
    ValidTimer (run P s events) := by
  induction events generalizing s with
  | nil => exact hv
  | cons e rest ih => exact ih (handle P s e) (handle_validTimer P s e hv)

end TimerMachine

/-- C2. The timer has three states and three transitions, driven by the select
button: in the timer view select_click_handler maps TIMER_RESET to
TIMER_RUNNING, TIMER_RUNNING to TIMER_IDLE and TIMER_IDLE to TIMER_RESET; in
any other view it changes nothing at all (so g_iTimerState and g_tTimerStart
stay); the other handlers leave g_iTimerState alone; so the timer state stays
one of the three under every sequence of events, and three select presses in
the timer view return to the starting timer state. -/
theorem timer_three_states (P : Platform) (s : State) (now now2 now3 : Int)
    (events : List Event)
    (ht : s.g_iTimerState = TIMER_RESET ∨ s.g_iTimerState = TIMER_RUNNING ∨
      s.g_iTimerState = TIMER_IDLE) :
    (s.g_iView = TIMER_VIEW →
      (s.g_iTimerState = TIMER_RESET →
        (select_click_handler P now s).g_iTimerState = TIMER_RUNNING) ∧
      (s.g_iTimerState = TIMER_RUNNING →
        (select_click_handler P now s).g_iTimerState = TIMER_IDLE) ∧
      (s.g_iTimerState = TIMER_IDLE →
        (select_click_handler P now s).g_iTimerState = TIMER_RESET) ∧
      (select_click_handler P now3 (select_click_handler P now2
        (select_click_handler P now s))).g_iTimerState = s.g_iTimerState) ∧
    (s.g_iView ≠ TIMER_VIEW → select_click_handler P now s = s) ∧
    (up_click_handler s).g_iTimerState = s.g_iTimerState ∧
    (down_click_handler s).g_iTimerState = s.g_iTimerState ∧
    (∀ is24h tick_time, (handle_tick P is24h now tick_time s).g_iTimerState = s.g_iTimerState) ∧
    (∀ c, (handle_battery_state c s).g_iTimerState = s.g_iTimerState) ∧
    ((run P s events).g_iTimerState = TIMER_RESET ∨
      (run P s events).g_iTimerState = TIMER_RUNNING ∨
      (run P s events).g_iTimerState = TIMER_IDLE) := by
  refine ⟨?_, ?_, (up_click_handler_timer s).1, (down_click_handler_timer s).1, ?_, ?_,
    run_validTimer P events s ht⟩
  · intro hview
    have hv1 : (select_click_handler P now s).g_iView = TIMER_VIEW := by
      rw [(select_click_handler_frame P now s).1]; exact hview
    have hv2 : (select_click_handler P now2 (select_click_handler P now s)).g_iView
        = TIMER_VIEW := by
      rw [(select_click_handler_frame P now2 _).1]; exact hv1
    simp only [select_click_handler_state, hview, hv1, hv2, if_true, TIMER_RESET, TIMER_RUNNING,
      TIMER_IDLE] at ht ⊢
    rcases ht with h | h | h <;> rw [h] <;> decide
  · intro hview
    simp [select_click_handler, hview]
  · intro is24h tick_time
    exact (handle_tick_frame P is24h now tick_time s).2.1
  · intro c
    exact (handle_battery_state_frame c s).2.1

/-- C2 in the timer view reached by one down press after start-up: the timer
is reset, one select press starts it and three return to the reset state; and
at start-up itself, in the main view, a select press changes nothing. -/
theorem timer_three_states_witness :
    (down_click_handler (window_load initial)).g_iTimerState = TIMER_RESET ∧
    (down_click_handler (window_load initial)).g_iView = TIMER_VIEW ∧
    (select_click_handler samplePlatform 10
      (down_click_handler (window_load initial))).g_iTimerState = TIMER_RUNNING ∧
    (select_click_handler samplePlatform 30 (select_click_handler samplePlatform 20
      (select_click_handler samplePlatform 10
        (down_click_handler (window_load initial))))).g_iTimerState
      = (down_click_handler (window_load initial)).g_iTimerState ∧
    select_click_handler samplePlatform 10 (window_load initial) = window_load initial :=
  ⟨by decide, by decide,
    ((timer_three_states samplePlatform (down_click_handler (window_load initial)) 10 20 30
      [Event.select 10, Event.select 75] (Or.inl (by decide))).1 (by decide)).1 (by decide),
    ((timer_three_states samplePlatform (down_click_handler (window_load initial)) 10 20 30
      [Event.select 10, Event.select 75] (Or.inl (by decide))).1 (by decide)).2.2.2,
    (timer_three_states samplePlatform (window_load initial) 10 20 30
      [] (Or.inl (by decide))).2.1 (by decide)⟩

section Rounding

theorem roundHalfEven_intCast (n : Int) : roundHalfEven (n : ℚ) = n := by
  unfold roundHalfEven
  simp

theorem roundHalfEven_abs_sub_le (y : ℚ) : |(roundHalfEven y : ℚ) - y| ≤ 1 / 2 := by
  have h1 := Int.floor_le y
  have h2 := Int.lt_floor_add_one y
  unfold roundHalfEven
  rw [abs_le]
  split_ifs with a b c
  · constructor <;> linarith
  · push_cast; constructor <;> linarith
  · constructor <;> linarith
  · push_cast; constructor <;> linarith

theorem roundBinary64_intCast (n : Int) (hn : |n| ≤ 9007199254740992) :
    roundBinary64 (n : ℚ) = n := by
  unfold roundBinary64
  split_ifs with h0
  · exact h0.symm
  · have hn0 : n ≠ 0 := by
      intro h; apply h0; rw [h]; simp
    have habs : |(n : ℚ)| = ((n.natAbs : Nat) : ℚ) := by
      rw [Nat.cast_natAbs, Int.cast_abs]
    rw [habs, Int.log_natCast]
    have hna : n.natAbs ≤ 2 ^ 53 := by
      have : (n.natAbs : Int) ≤ 9007199254740992 := by rw [Int.natCast_natAbs]; exact hn
      have : n.natAbs ≤ 9007199254740992 := by exact_mod_cast this
      simpa using this
    have hna0 : n.natAbs ≠ 0 := by simpa using hn0
    have hL : Nat.log 2 n.natAbs ≤ 53 := by
      have := Nat.log_mono_right (b := 2) hna
      rwa [Nat.log_pow (by norm_num)] at this
    have hpow := Nat.pow_log_le_self 2 hna0
    generalize Nat.log 2 n.natAbs = L at hL hpow
    have key : ∃ m : Int, (n : ℚ) / 2 ^ ((L : Int) - 52) = (m : ℚ) := by
      rcases Nat.lt_or_ge L 53 with hlt | hge
      · refine ⟨n * 2 ^ (52 - L), ?_⟩
        have : ((L : Int) - 52) = -((52 - L : Nat) : Int) := by omega
        rw [this, zpow_neg, zpow_natCast]
        push_cast
        field_simp
      · have hL53 : L = 53 := by omega
        subst hL53
        have hnat : n.natAbs = 2 ^ 53 := le_antisymm hna hpow
        have hdvd : (2 : Int) ∣ n := by
          have : (2 : Int) ∣ (n.natAbs : Int) := by rw [hnat]; norm_num
          exact (Int.dvd_natAbs).mp this
        obtain ⟨m, hm⟩ := hdvd
        refine ⟨m, ?_⟩
        rw [hm]
        norm_num
    obtain ⟨m, hm⟩ := key
    rw [hm, roundHalfEven_intCast, ← hm]
    have : (2 : ℚ) ^ ((L : Int) - 52) ≠ 0 := by positivity
    field_simp

theorem roundBinary64_rel_error (x : ℚ) (hx : x ≠ 0) :
    |roundBinary64 x - x| ≤ |x| / 9007199254740992 := by
  unfold roundBinary64
  rw [if_neg hx]
  have hpos : 0 < |x| := abs_pos.mpr hx
  have hlog := Int.zpow_log_le_self (b := 2) (by norm_num) hpos
  generalize Int.log 2 |x| = e at hlog
  have hu : (0 : ℚ) < 2 ^ (e - 52) := by positivity
  have herr := roundHalfEven_abs_sub_le (x / 2 ^ (e - 52))
  have hsplit : (roundHalfEven (x / 2 ^ (e - 52)) : ℚ) * 2 ^ (e - 52) - x
      = ((roundHalfEven (x / 2 ^ (e - 52)) : ℚ) - x / 2 ^ (e - 52)) * 2 ^ (e - 52) := by
    field_simp
  rw [hsplit, abs_mul, abs_of_pos hu]
  have h53 : (2 : ℚ) ^ (e - 52) = 2 ^ e / 4503599627370496 := by
    rw [zpow_sub₀ (by norm_num)]
    norm_num
  have h2e : (0 : ℚ) < 2 ^ e := by positivity
  push_cast at hlog
  calc |(roundHalfEven (x / 2 ^ (e - 52)) : ℚ) - x / 2 ^ (e - 52)| * 2 ^ (e - 52)
      ≤ 1 / 2 * 2 ^ (e - 52) := by
        apply mul_le_mul_of_nonneg_right herr hu.le
    _ = 2 ^ e / 9007199254740992 := by rw [h53]; ring
    _ ≤ |x| / 9007199254740992 := by
        apply div_le_div_of_nonneg_right hlog (by norm_num)


theorem truncToInt_intCast (n : Int) : truncToInt (n : ℚ) = n := by
  unfold truncToInt
  split_ifs <;> simp

theorem truncToInt_eq_of_mem_Ico (x : ℚ) (q : Int) (hq : 0 ≤ q) (h1 : (q : ℚ) ≤ x)
    (h2 : x < q + 1) : truncToInt x = q := by
  unfold truncToInt
  have hx : (0 : ℚ) ≤ x := le_trans (by exact_mod_cast hq) h1
  rw [if_pos hx]
  exact Int.floor_eq_iff.mpr ⟨h1, h2⟩

theorem fl_intCast {fl : ℚ → ℚ} (hfl : IsDoubleRounding fl) (n : Int)
    (hn : |n| ≤ 9007199254740992) : fl (n : ℚ) = n :=
  hfl.1 n hn

theorem fl_natCast {fl : ℚ → ℚ} (hfl : IsDoubleRounding fl) (n : Nat)
    (hn : n ≤ 9007199254740992) : fl (n : ℚ) = n := by
  have h := hfl.1 (n : Int) (by rw [abs_of_nonneg (by positivity)]; exact_mod_cast hn)
  simpa using h

/-- Between `2^-20` and `2^40` the rounding error is at most `2^-13`. -/
theorem fl_abs_error {fl : ℚ → ℚ} (hfl : IsDoubleRounding fl) (x : ℚ)
    (h0 : 1 / 1048576 ≤ x) (hx : x ≤ 1099511627776) : |fl x - x| ≤ 1 / 8192 := by
  have hpos : (0 : ℚ) ≤ x := le_trans (by norm_num) h0
  have h := hfl.2 x (by rw [abs_of_nonneg hpos]; exact h0) (by rw [abs_of_nonneg hpos]; exact hx)
  rw [abs_of_nonneg hpos] at h
  have h2 : x / 9007199254740992 ≤ 1 / 8192 := by
    rw [div_le_div_iff₀ (by norm_num) (by norm_num)]
    linarith
  exact le_trans h h2

/-- The quotient of two whole numbers rounded to `double`: exact when the
division is, and otherwise strictly between the integer quotient and its
successor with a margin. -/
theorem fl_div_bounds {fl : ℚ → ℚ} (hfl : IsDoubleRounding fl) (n k : Nat) (hk : 0 < k)
    (hk2 : k ≤ 3600) (hn : n < 1099511627776 * k) :
    (n % k = 0 ∧ fl ((n : ℚ) / k) = ((n / k : Nat) : ℚ)) ∨
    (n % k ≠ 0 ∧ ((n / k : Nat) : ℚ) + 1 / k - 1 / 8192 ≤ fl ((n : ℚ) / k) ∧
      fl ((n : ℚ) / k) ≤ ((n / k : Nat) : ℚ) + 1 - 1 / k + 1 / 8192) := by
  have hkq : (0 : ℚ) < k := by exact_mod_cast hk
  have hdm : (n : ℚ) = k * (n / k : Nat) + (n % k : Nat) := by
    exact_mod_cast (Nat.div_add_mod n k).symm
  have hx : (n : ℚ) / k = (n / k : Nat) + ((n % k : Nat) : ℚ) / k := by
    field_simp
    linarith
  have hqlt : n / k < 1099511627776 :=
    Nat.div_lt_of_lt_mul (by rw [Nat.mul_comm]; exact hn)
  by_cases hr : n % k = 0
  · left
    refine ⟨hr, ?_⟩
    rw [hx, hr]
    simp only [Nat.cast_zero, zero_div, add_zero]
    exact fl_natCast hfl _ (by omega)
  · right
    refine ⟨hr, ?_⟩
    have hr1 : (1 : ℚ) ≤ (n % k : Nat) := by
      exact_mod_cast Nat.one_le_iff_ne_zero.mpr hr
    have hr2 : ((n % k : Nat) : ℚ) ≤ k - 1 := by
      have h3 : n % k + 1 ≤ k := Nat.mod_lt n hk
      have h4 : ((n % k : Nat) : ℚ) + 1 ≤ k := by exact_mod_cast h3
      linarith
    have hlo : ((n / k : Nat) : ℚ) + 1 / k ≤ (n : ℚ) / k := by
      rw [hx]
      have : (1 : ℚ) / k ≤ ((n % k : Nat) : ℚ) / k :=
        div_le_div_of_nonneg_right hr1 hkq.le
      linarith
    have hhi : (n : ℚ) / k ≤ ((n / k : Nat) : ℚ) + 1 - 1 / k := by
      rw [hx]
      have : ((n % k : Nat) : ℚ) / k ≤ (k - 1) / k :=
        div_le_div_of_nonneg_right hr2 hkq.le
      have h5 : ((k : ℚ) - 1) / k = 1 - 1 / k := by field_simp
      linarith
    have hk3 : (k : ℚ) ≤ 3600 := by exact_mod_cast hk2
    have hinv : (1 : ℚ) / 3600 ≤ 1 / k := by
      rw [div_le_div_iff₀ (by norm_num) hkq]; linarith
    have hq0 : (0 : ℚ) ≤ ((n / k : Nat) : ℚ) := by positivity
    have hx0 : (1 : ℚ) / 1048576 ≤ (n : ℚ) / k := by
      have : (1 : ℚ) / 1048576 ≤ 1 / 3600 := by norm_num
      linarith
    have hxle : (n : ℚ) / k ≤ 1099511627776 := by
      have h7 : (n : ℚ) ≤ 1099511627776 * k := by exact_mod_cast hn.le
      exact (div_le_iff₀ hkq).mpr h7
    have herr := fl_abs_error hfl _ hx0 hxle
    rw [abs_le] at herr
    constructor
    · linarith [herr.1]
    · linarith [herr.2]

/-- The quotient of two whole numbers, rounded to `double` and truncated, is
the integer quotient. -/
theorem truncToInt_fl_div {fl : ℚ → ℚ} (hfl : IsDoubleRounding fl) (n k : Nat) (hk : 0 < k)
    (hk2 : k ≤ 3600) (hn : n < 1099511627776 * k) :
    truncToInt (fl ((n : ℚ) / k)) = ((n / k : Nat) : Int) := by
  have hkq : (0 : ℚ) < k := by exact_mod_cast hk
  have hk3 : (k : ℚ) ≤ 3600 := by exact_mod_cast hk2
  have hinv : (1 : ℚ) / 3600 ≤ 1 / k := by
    rw [div_le_div_iff₀ (by norm_num) hkq]; linarith
  rcases fl_div_bounds hfl n k hk hk2 hn with ⟨_, h⟩ | ⟨_, h1, h2⟩
  · rw [h]
    exact truncToInt_intCast _
  · apply truncToInt_eq_of_mem_Ico _ _ (by positivity)
    · rw [Int.cast_natCast]
      linarith
    · rw [Int.cast_natCast]
      linarith

/-- A value within the rounding margin of the open unit interval above a small
whole number rounds and truncates to that number. -/
theorem truncToInt_fl_near {fl : ℚ → ℚ} (hfl : IsDoubleRounding fl) (w : ℚ) (m : Nat)
    (hm : m ≤ 59) (h1 : (m : ℚ) + 1 / 60 - 1 / 8192 ≤ w)
    (h2 : w ≤ (m : ℚ) + 1 - 1 / 60 + 1 / 8192) :
    truncToInt (fl w) = ((m : Nat) : Int) := by
  have hm0 : (0 : ℚ) ≤ (m : ℚ) := by positivity
  have hm1 : (m : ℚ) ≤ 59 := by exact_mod_cast hm
  have hlow : (1 : ℚ) / 1048576 ≤ 1 / 60 - 1 / 8192 := by norm_num
  have herr := fl_abs_error hfl w (by linarith) (by linarith)
  rw [abs_le] at herr
  apply truncToInt_eq_of_mem_Ico _ _ (by positivity)
  · rw [Int.cast_natCast]
    linarith [herr.1]
  · rw [Int.cast_natCast]
    linarith [herr.2]

end Rounding

section TimerFields

variable (P : Platform)

theorem difftime_eq (hfl : IsDoubleRounding P.fl) (now start : Int) (d : Nat)
    (hd : now - start = d) (hrange : d < 65970697666560) :
    difftime P now start = (d : ℚ) := by
  unfold difftime
  have h : (now : ℚ) - start = ((d : Int) : ℚ) := by
    rw [← hd]; push_cast; ring
  rw [h, fl_intCast hfl (d : Int) (by rw [abs_of_nonneg (by positivity)]; omega)]
  simp

theorem iHours_eq (hfl : IsDoubleRounding P.fl) (d : Nat) (hrange : d < 65970697666560) :
    iHours P (d : ℚ) = ((d / 3600 : Nat) : Int) := by
  unfold iHours
  have h := truncToInt_fl_div hfl d 3600 (by norm_num) (by norm_num) (by omega)
  simpa using h

theorem iMinutes_eq (hfl : IsDoubleRounding P.fl) (d : Nat) (hrange : d < 65970697666560) :
    iMinutes P (d : ℚ) = ((d / 60 % 60 : Nat) : Int) := by
  unfold iMinutes
  rw [iHours_eq P hfl d hrange]
  have hm : ((d / 60 : Nat) : ℚ) - (((d / 3600 : Nat) : Int) * 60 : Int)
      = ((d / 60 % 60 : Nat) : ℚ) := by
    have h1 : d / 60 = 60 * (d / 3600) + d / 60 % 60 := by omega
    have h2 : ((d / 60 : Nat) : ℚ) = 60 * (d / 3600 : Nat) + (d / 60 % 60 : Nat) := by
      exact_mod_cast h1
    simp only [Int.cast_mul, Int.cast_natCast, Int.cast_ofNat]
    linarith
  have hmlt : ((d / 60 % 60 : Nat) : ℚ) ≤ 59 := by
    have : d / 60 % 60 ≤ 59 := by omega
    exact_mod_cast this
  have hm0 : (0 : ℚ) ≤ ((d / 60 % 60 : Nat) : ℚ) := by positivity
  rcases fl_div_bounds hfl d 60 (by norm_num) (by norm_num) (by omega) with ⟨_, h⟩ | ⟨_, h1, h2⟩
  · have h60 : ((60 : Nat) : ℚ) = 60 := by norm_num
    rw [h60] at h
    rw [h, hm, fl_natCast hfl _ (by omega)]
    exact truncToInt_intCast _
  · have h60 : ((60 : Nat) : ℚ) = 60 := by norm_num
    rw [h60] at h1 h2
    apply truncToInt_fl_near hfl _ _ (by omega)
    · linarith
    · linarith

theorem iSeconds_eq (hfl : IsDoubleRounding P.fl) (d : Nat) (hrange : d < 65970697666560) :
    iSeconds P (d : ℚ) = ((d % 60 : Nat) : Int) := by
  unfold iSeconds
  rw [iHours_eq P hfl d hrange, iMinutes_eq P hfl d hrange]
  have h1 : (d : ℚ) - ((((d / 3600 : Nat) : Int) * 60 * 60 : Int) : ℚ)
      = (((d % 3600 : Nat) : Int) : ℚ) := by
    have : d = 3600 * (d / 3600) + d % 3600 := by omega
    have h2 : (d : ℚ) = 3600 * (d / 3600 : Nat) + (d % 3600 : Nat) := by exact_mod_cast this
    simp only [Int.cast_mul, Int.cast_natCast, Int.cast_ofNat]
    linarith
  rw [h1, fl_intCast hfl _ (by rw [abs_of_nonneg (by positivity)]; omega)]
  have h3 : (((d % 3600 : Nat) : Int) : ℚ) - ((((d / 60 % 60 : Nat) : Int) * 60 : Int) : ℚ)
      = (((d % 60 : Nat) : Int) : ℚ) := by
    have : d % 3600 = 60 * (d / 60 % 60) + d % 60 := by omega
    have h4 : ((d % 3600 : Nat) : ℚ) = 60 * (d / 60 % 60 : Nat) + (d % 60 : Nat) := by
      exact_mod_cast this
    simp only [Int.cast_mul, Int.cast_natCast, Int.cast_ofNat]
    linarith
  rw [h3, fl_intCast hfl _ (by rw [abs_of_nonneg (by positivity)]; omega)]
  exact truncToInt_intCast _

end TimerFields

section TimerText

theorem decimal_length_le (n e : Nat) (he : 0 < e) (hn : n < 10 ^ e) :
    (decimal n).length ≤ e := by
  unfold decimal Nat.toDigits
  exact Nat.toDigitsCore_length 10 (by decide) (n + 1) n e hn he

theorem fmt02d_length_le (n e : Nat) (he : 2 ≤ e) (hn : n < 10 ^ e) :
    (fmt02d (n : Int)).length ≤ e := by
  have h := decimal_length_le n e (by omega) hn
  unfold fmt02d
  have h0 : ¬ ((n : Int) < 0) := by omega
  rw [if_neg h0, Int.natAbs_ofNat]
  split_ifs with h2
  · simp only [List.length_cons]; omega
  · exact h

theorem fmt02d_length_two (n : Nat) (hn : n < 100) : (fmt02d (n : Int)).length = 2 := by
  interval_cases n <;> rfl

theorem isDoubleRounding_binary64 : IsDoubleRounding samplePlatform.fl := by
  constructor
  · intro n hn
    exact roundBinary64_intCast n hn
  · intro x hx _
    apply roundBinary64_rel_error
    intro h0
    rw [h0, abs_zero] at hx
    norm_num at hx

theorem update_timer_text (P : Platform) (now : Int) (s : State)
    (hview : s.g_iView = TIMER_VIEW) (hrun : s.g_iTimerState = TIMER_RUNNING) :
    (update_timer P now s).g_szTimer = timerText P (difftime P now s.g_tTimerStart) ∧
    (update_timer P now s).shown LayerId.g_pTimerLayer = (update_timer P now s).g_szTimer := by
  unfold update_timer
  rw [if_pos ⟨hview, hrun⟩]
  simp [State.shown, State.layer, State.deref, text_layer_set_text, set_g_szTimer, emit]

end TimerText

/-- C3 (as amended). Elapsed-time formatting: for every whole number d of
elapsed seconds (now minus g_tTimerStart) with 0 <= d < 2147486400, when
update_timer runs with the timer view shown and the timer running, it computes
iHours = d div 3600, iMinutes = (d div 60) mod 60 and iSeconds = d mod 60, with
every int-typed intermediate value inside 32 bits, and the text it leaves in
g_szTimer, which the timer layer then shows, is the whole zero-padded
"%02d:%02d:%02d" rendering of the three; iHours*3600 + iMinutes*60 + iSeconds
= d with minutes and seconds in [0, 60); for d < 360000 the text has exactly 8
characters, and for d = 0 it is "00:00:00". -/
theorem update_timer_elapsed_text (P : Platform) (hfl : IsDoubleRounding P.fl) (s : State)
    (now : Int) (d : Nat) (hview : s.g_iView = TIMER_VIEW)
    (hrun : s.g_iTimerState = TIMER_RUNNING) (hd : now - s.g_tTimerStart = d)
    (hrange : d < 2147486400) :
    iHours P (difftime P now s.g_tTimerStart) = ((d / 3600 : Nat) : Int) ∧
    iMinutes P (difftime P now s.g_tTimerStart) = ((d / 60 % 60 : Nat) : Int) ∧
    iSeconds P (difftime P now s.g_tTimerStart) = ((d % 60 : Nat) : Int) ∧
    timerArithDefined P (difftime P now s.g_tTimerStart) ∧
    (update_timer P now s).g_szTimer =
      fmtTimer ((d / 3600 : Nat) : Int) ((d / 60 % 60 : Nat) : Int) ((d % 60 : Nat) : Int) ∧
    (update_timer P now s).shown LayerId.g_pTimerLayer = (update_timer P now s).g_szTimer ∧
    iHours P (difftime P now s.g_tTimerStart) * 3600
      + iMinutes P (difftime P now s.g_tTimerStart) * 60
      + iSeconds P (difftime P now s.g_tTimerStart) = (d : Int) ∧
    0 ≤ iMinutes P (difftime P now s.g_tTimerStart) ∧
    iMinutes P (difftime P now s.g_tTimerStart) < 60 ∧
    0 ≤ iSeconds P (difftime P now s.g_tTimerStart) ∧
    iSeconds P (difftime P now s.g_tTimerStart) < 60 ∧
    (d < 360000 → ((update_timer P now s).g_szTimer).length = 8) ∧
    (d = 0 → (update_timer P now s).g_szTimer = "00:00:00".data) := by
  have hr : d < 65970697666560 := by omega
  have hdiff := difftime_eq P hfl now s.g_tTimerStart d hd hr
  have hH := iHours_eq P hfl d hr
  have hM := iMinutes_eq P hfl d hr
  have hS := iSeconds_eq P hfl d hr
  have htext : (update_timer P now s).g_szTimer =
      fmtTimer ((d / 3600 : Nat) : Int) ((d / 60 % 60 : Nat) : Int) ((d % 60 : Nat) : Int) := by
    rw [(update_timer_text P now s hview hrun).1]
    simp only [timerText, hdiff, hH, hM, hS, snprintf]
    apply List.take_of_length_le
    have h1 := fmt02d_length_le (d / 3600) 7 (by norm_num) (by omega)
    have h2 := fmt02d_length_two (d / 60 % 60) (by omega)
    have h3 := fmt02d_length_two (d % 60) (by omega)
    simp only [fmtTimer, List.length_append, List.length_cons, h2, h3]
    omega
  have hshown := (update_timer_text P now s hview hrun).2
  rw [hdiff, hH, hM, hS]
  refine ⟨rfl, rfl, rfl, ?_, htext, hshown, by omega, by omega, by omega, by omega, by omega,
    ?_, ?_⟩
  · unfold timerArithDefined inInt32
    rw [hH, hM, hS]
    omega
  · intro hsmall
    rw [htext]
    have h1 := fmt02d_length_two (d / 3600) (by omega)
    have h2 := fmt02d_length_two (d / 60 % 60) (by omega)
    have h3 := fmt02d_length_two (d % 60) (by omega)
    simp only [fmtTimer, List.length_append, List.length_cons, h1, h2, h3]
  · intro hzero
    rw [htext, hzero]
    rfl

/-- C3 at a timer started at time 100 and read at time 3861: the text is
"01:02:41". -/
theorem update_timer_elapsed_text_witness :
    IsDoubleRounding samplePlatform.fl ∧
    (run samplePlatform (window_load initial) [Event.down, Event.select 100]).g_iView
      = TIMER_VIEW ∧
    (run samplePlatform (window_load initial) [Event.down, Event.select 100]).g_iTimerState
      = TIMER_RUNNING ∧
    (update_timer samplePlatform 3861
      (run samplePlatform (window_load initial) [Event.down, Event.select 100])).g_szTimer
      = "01:02:41".data :=
  ⟨isDoubleRounding_binary64, by decide, by decide,
    (update_timer_elapsed_text samplePlatform isDoubleRounding_binary64
      (run samplePlatform (window_load initial) [Event.down, Event.select 100]) 3861 3761
      (by decide) (by decide) (by decide) (by decide)).2.2.2.2.1.trans (by decide)⟩

/-- C3 fails as stated for every d. With binary64 rounding and a timer started
at time 0 and read at time 2147486400, update_timer is in its guarded block,
iHours is 596524, and the product iHours * 60 * 60 of line 76 is 2147486400,
above the largest 32-bit int 2147483647: the int arithmetic of the block has no
defined result there. -/
theorem update_timer_elapsed_text_counterexample :
    (run samplePlatform (window_load initial) [Event.down, Event.select 0]).g_iView
      = TIMER_VIEW ∧
    (run samplePlatform (window_load initial) [Event.down, Event.select 0]).g_iTimerState
      = TIMER_RUNNING ∧
    (run samplePlatform (window_load initial) [Event.down, Event.select 0]).g_tTimerStart = 0 ∧
    iHours samplePlatform (difftime samplePlatform 2147486400 0) = 596524 ∧
    iHours samplePlatform (difftime samplePlatform 2147486400 0) * 60 * 60 = 2147486400 ∧
    ¬ inInt32 (iHours samplePlatform (difftime samplePlatform 2147486400 0) * 60 * 60) ∧
    ¬ timerArithDefined samplePlatform (difftime samplePlatform 2147486400 0) := by
  have hfl := isDoubleRounding_binary64
  have hd1 : difftime samplePlatform 2147486400 0 = ((2147486400 : Nat) : ℚ) :=
    difftime_eq samplePlatform hfl 2147486400 0 2147486400 (by norm_num) (by norm_num)
  have hH : iHours samplePlatform (difftime samplePlatform 2147486400 0) = 596524 := by
    rw [hd1, iHours_eq samplePlatform hfl _ (by norm_num)]
    norm_num
  refine ⟨by decide, by decide, by decide, hH, by rw [hH]; norm_num, by rw [hH]; decide, ?_⟩
  intro h
  have h4 := h.2.2.2.1
  rw [hH] at h4
  exact absurd h4 (by decide)

section Drawing

variable (P : Platform)

theorem run_cons (s : State) (e : Event) (rest : List Event) :
    run P s (e :: rest) = run P (handle P s e) rest := rfl

theorem handle_battery (s : State) (e : Event) :
    (handle P s e).g_iBatteryCharging =
      match e with
      | Event.battery charge_state => charge_state.is_charging
      | _ => s.g_iBatteryCharging := by
  cases e with
  | select now => exact (select_click_handler_frame P now s).2.1
  | up => exact (up_click_handler_timer s).2.2.2
  | down => exact (down_click_handler_timer s).2.2.2
  | tick is24h now tick_time => exact (handle_tick_frame P is24h now tick_time s).2.2.2.1
  | battery c => exact (handle_battery_state_frame c s).2.2.2.2.2.2.2

theorem run_battery (events : List Event) (s : State) :
    (run P s events).g_iBatteryCharging =
      events.foldl (fun acc e => match e with
        | Event.battery charge_state => charge_state.is_charging
        | _ => acc) s.g_iBatteryCharging := by
  induction events generalizing s with
  | nil => rfl
  | cons e rest ih =>
    rw [run_cons, ih, List.foldl_cons, handle_battery]

theorem draw_main_clock_counts (bounds : GRect) :
    (draw_main_clock bounds).filter GCall.isDrawBitmap = [] ∧
    (draw_main_clock bounds).filter GCall.isFillCircle = [] ∧
    (draw_main_clock bounds).filter GCall.isDrawLine = [] := by
  simp [draw_main_clock, GCall.isDrawBitmap, GCall.isFillCircle, GCall.isDrawLine]

theorem draw_analog_clock_counts (bounds : GRect) (curr_time : Tm) :
    (draw_analog_clock P bounds curr_time).filter GCall.isDrawBitmap = [] ∧
    ((draw_analog_clock P bounds curr_time).filter GCall.isFillCircle).length = 13 ∧
    ((draw_analog_clock P bounds curr_time).filter GCall.isDrawLine).length = 2 := by
  refine ⟨?_, ?_, ?_⟩
  · simp [draw_analog_clock, GCall.isDrawBitmap, List.filter_map, Function.comp_def]
  · simp [draw_analog_clock, GCall.isFillCircle, List.filter_map, Function.comp_def]
  · simp [draw_analog_clock, GCall.isDrawLine, List.filter_map, Function.comp_def]

theorem draw_info_bar_counts (bounds : GRect) (s : State) :
    (draw_info_bar bounds s).filter GCall.isDrawBitmap = draw_info_bar bounds s ∧
    (draw_info_bar bounds s).filter GCall.isFillCircle = [] ∧
    (draw_info_bar bounds s).filter GCall.isDrawLine = [] := by
  unfold draw_info_bar
  split_ifs <;> simp [GCall.isDrawBitmap, GCall.isFillCircle, GCall.isDrawLine]

theorem face_draw_bitmaps (bounds : GRect) (curr_time : Tm) (s : State) :
    (face_draw P bounds curr_time s).filter GCall.isDrawBitmap = draw_info_bar bounds s := by
  unfold face_draw
  rw [List.filter_append, (draw_info_bar_counts bounds s).1]
  split_ifs
  · rw [(draw_main_clock_counts bounds).1, List.append_nil]
  · rw [(draw_analog_clock_counts P bounds curr_time).1, List.append_nil]
  · simp

theorem face_draw_circles (bounds : GRect) (curr_time : Tm) (s : State) :
    ((face_draw P bounds curr_time s).filter GCall.isFillCircle).length =
      if s.g_iView = ANALOG_VIEW then 13 else 0 := by
  unfold face_draw
  rw [List.filter_append, (draw_info_bar_counts bounds s).2.1, List.nil_append]
  by_cases h1 : s.g_iView = MAIN_VIEW
  · have h2 : ¬ s.g_iView = ANALOG_VIEW := by rw [h1]; decide
    rw [if_pos h1, if_neg h2, (draw_main_clock_counts bounds).2.1]
    rfl
  · rw [if_neg h1]
    split_ifs
    · exact (draw_analog_clock_counts P bounds curr_time).2.1
    · rfl

theorem face_draw_lines (bounds : GRect) (curr_time : Tm) (s : State) :
    ((face_draw P bounds curr_time s).filter GCall.isDrawLine).length =
      if s.g_iView = ANALOG_VIEW then 2 else 0 := by
  unfold face_draw
  rw [List.filter_append, (draw_info_bar_counts bounds s).2.2, List.nil_append]
  by_cases h1 : s.g_iView = MAIN_VIEW
  · have h2 : ¬ s.g_iView = ANALOG_VIEW := by rw [h1]; decide
    rw [if_pos h1, if_neg h2, (draw_main_clock_counts bounds).2.2]
    rfl
  · rw [if_neg h1]
    split_ifs
    · exact (draw_analog_clock_counts P bounds curr_time).2.2
    · rfl

end Drawing

/-- C4. The charging icon is driven by battery-state notifications: after any
sequence of events from start-up, g_iBatteryCharging holds the is_charging
field of the most recent battery notification (0 when there was none), and in
every state and view one face_draw issues exactly one bitmap draw, of
g_imgCharging into the rectangle with origin (w - 42, 0) (stored as int16_t)
and size 42 x 28, when that value is non-zero and no bitmap draw when it is
zero; for every width w from -32726 to 32767 the stored origin is w - 42
itself. -/
theorem charging_icon_follows_battery (P : Platform) (bounds : GRect) (curr_time : Tm)
    (events : List Event) (s : State) :
    (run P (window_load initial) events).g_iBatteryCharging = lastCharging events ∧
    (face_draw P bounds curr_time (run P (window_load initial) events)).filter
        GCall.isDrawBitmap =
      (if lastCharging events ≠ 0 then
        [GCall.graphics_draw_bitmap_in_rect Bitmap.g_imgCharging
          { origin := { x := toInt16 (bounds.size.w - 42), y := 0 },
            size := { w := 42, h := 28 } }]
      else []) ∧
    (face_draw P bounds curr_time s).filter GCall.isDrawBitmap =
      (if s.g_iBatteryCharging ≠ 0 then
        [GCall.graphics_draw_bitmap_in_rect Bitmap.g_imgCharging
          { origin := { x := toInt16 (bounds.size.w - 42), y := 0 },
            size := { w := 42, h := 28 } }]
      else []) ∧
    (-32726 ≤ bounds.size.w → bounds.size.w ≤ 32767 →
      toInt16 (bounds.size.w - 42) = bounds.size.w - 42) := by
  have hrun : (run P (window_load initial) events).g_iBatteryCharging = lastCharging events := by
    rw [run_battery]
    rfl
  refine ⟨hrun, ?_, ?_, ?_⟩
  · rw [face_draw_bitmaps, draw_info_bar, hrun]
  · rw [face_draw_bitmaps, draw_info_bar]
  · intro h1 h2
    unfold toInt16
    omega

/-- C4 on the 144 x 168 screen: charging is reported, then the view changes,
and face_draw draws the icon once, at (102, 0). -/
theorem charging_icon_follows_battery_witness :
    lastCharging [Event.battery sampleCharging, Event.down] = 1 ∧
    (face_draw samplePlatform sampleBounds sampleTime
      (run samplePlatform (window_load initial)
        [Event.battery sampleCharging, Event.down])).filter GCall.isDrawBitmap =
      [GCall.graphics_draw_bitmap_in_rect Bitmap.g_imgCharging
        { origin := { x := 102, y := 0 }, size := { w := 42, h := 28 } }] :=
  ⟨by decide,
    (charging_icon_follows_battery samplePlatform sampleBounds sampleTime
      [Event.battery sampleCharging, Event.down] initial).2.1.trans (by decide)⟩

/-- C5 (as amended). One face_draw issues at most 13 circle fills and at most
two line draws: exactly 13 circles (twelve hour marks and the centre point)
and two lines in ANALOG_VIEW, and none of either in any other view, whatever
the charging flag. -/
theorem face_draw_shape_counts (P : Platform) (bounds : GRect) (curr_time : Tm) (s : State) :
    ((face_draw P bounds curr_time s).filter GCall.isFillCircle).length ≤ 13 ∧
    ((face_draw P bounds curr_time s).filter GCall.isDrawLine).length ≤ 2 ∧
    (s.g_iView = ANALOG_VIEW →
      ((face_draw P bounds curr_time s).filter GCall.isFillCircle).length = 13 ∧
      ((face_draw P bounds curr_time s).filter GCall.isDrawLine).length = 2) ∧
    (s.g_iView ≠ ANALOG_VIEW →
      ((face_draw P bounds curr_time s).filter GCall.isFillCircle).length = 0 ∧
      ((face_draw P bounds curr_time s).filter GCall.isDrawLine).length = 0) := by
  rw [face_draw_circles, face_draw_lines]
  refine ⟨?_, ?_, ?_, ?_⟩
  · split_ifs <;> omega
  · split_ifs <;> omega
  · intro h; rw [if_pos h, if_pos h]; exact ⟨rfl, rfl⟩
  · intro h; rw [if_neg h, if_neg h]; exact ⟨rfl, rfl⟩

/-- C5 in the analog view reached by one up press after start-up: 13 circle
fills and two line draws. -/
theorem face_draw_shape_counts_witness :
    (run samplePlatform (window_load initial) [Event.up]).g_iView = ANALOG_VIEW ∧
    ((face_draw samplePlatform sampleBounds sampleTime
      (run samplePlatform (window_load initial) [Event.up])).filter
        GCall.isFillCircle).length = 13 ∧
    ((face_draw samplePlatform sampleBounds sampleTime
      (run samplePlatform (window_load initial) [Event.up])).filter
        GCall.isDrawLine).length = 2 :=
  ⟨by decide,
    (face_draw_shape_counts samplePlatform sampleBounds sampleTime
      (run samplePlatform (window_load initial) [Event.up])).2.2.1 (by decide)⟩

/-- C5 fails as stated: in the analog view reached by one up press after
start-up, one face_draw issues 13 circle fills, the twelve hour marks and the
centre point, which is more than 12. -/
theorem face_draw_shape_counts_counterexample :
    (run samplePlatform (window_load initial) [Event.up]).g_iView = ANALOG_VIEW ∧
    ((face_draw samplePlatform sampleBounds sampleTime
      (run samplePlatform (window_load initial) [Event.up])).filter
        GCall.isFillCircle).length = 13 ∧
    ¬ ((face_draw samplePlatform sampleBounds sampleTime
      (run samplePlatform (window_load initial) [Event.up])).filter
        GCall.isFillCircle).length ≤ 12 := by
  have h : ((face_draw samplePlatform sampleBounds sampleTime
      (run samplePlatform (window_load initial) [Event.up])).filter
        GCall.isFillCircle).length = 13 := by
    rw [face_draw_circles, if_pos (by decide)]
  exact ⟨by decide, h, by rw [h]; decide⟩

/-- C6 (as amended). Redraw requests and writes within one handler invocation:
up_click_handler and down_click_handler, from any of the three views, issue at
least one layer_set_hidden call, and one of them comes after the write of
g_iView exactly when the view switched to is not ANALOG_VIEW; timer_toggle in
each of its three states ends with the write of g_iTimerState, with no toolkit
call after its writes of g_tTimerStart and g_iTimerState (its
text_layer_set_text calls come before), as its exact trace in each state
shows; handle_battery_state writes g_iBatteryCharging and issues no toolkit
call that requests a redraw; handle_tick follows each buffer write by
text_layer_set_text. -/
theorem redraw_requests_in_handlers (P : Platform) (now : Int) (is24h : Bool) (tick_time : Tm)
    (c : BatteryChargeState) (s : State)
    (hv : s.g_iView = MAIN_VIEW ∨ s.g_iView = TIMER_VIEW ∨ s.g_iView = ANALOG_VIEW)
    (ht : s.g_iTimerState = TIMER_RESET ∨ s.g_iTimerState = TIMER_RUNNING ∨
      s.g_iTimerState = TIMER_IDLE) :
    (invocation up_click_handler s).any Act.isRedraw = true ∧
    (redrawAfterWrites (invocation up_click_handler s) = true ↔
      (up_click_handler s).g_iView ≠ ANALOG_VIEW) ∧
    (invocation down_click_handler s).any Act.isRedraw = true ∧
    (redrawAfterWrites (invocation down_click_handler s) = true ↔
      (down_click_handler s).g_iView ≠ ANALOG_VIEW) ∧
    redrawAfterWrites (invocation (timer_toggle P now) s) = false ∧
    (invocation (timer_toggle P now) s).getLast? = some (Act.write Var.g_iTimerState) ∧
    invocation (handle_battery_state c) s = [Act.write Var.g_iBatteryCharging, Act.app_log] ∧
    redrawAfterWrites (invocation (handle_battery_state c) s) = false ∧
    redrawAfterWrites (invocation (handle_tick P is24h now tick_time) s) = true ∧
    (s.g_iTimerState = TIMER_RESET →
      invocation (timer_toggle P now) s
        = [Act.app_log, Act.write Var.g_tTimerStart, Act.write Var.g_iTimerState]) ∧
    (s.g_iTimerState = TIMER_RUNNING → s.g_iView = TIMER_VIEW →
      invocation (timer_toggle P now) s
        = [Act.app_log, Act.write Var.g_szTimer,
            Act.text_layer_set_text LayerId.g_pTimerLayer TextRef.g_szTimer,
            Act.write Var.g_iTimerState]) ∧
    (s.g_iTimerState = TIMER_RUNNING → s.g_iView ≠ TIMER_VIEW →
      invocation (timer_toggle P now) s = [Act.app_log, Act.write Var.g_iTimerState]) ∧
    (s.g_iTimerState = TIMER_IDLE →
      invocation (timer_toggle P now) s
        = [Act.app_log,
            Act.text_layer_set_text LayerId.g_pTimerLayer (TextRef.literal "00:00:00".data),
            Act.write Var.g_iTimerState]) := by
  refine ⟨?_, ?_, ?_, ?_, ?_, ?_, ?_, ?_, ?_, ?_, ?_, ?_, ?_⟩
  · rcases hv with h | h | h <;>
      simp [invocation, up_click_handler, close_view, open_view, set_g_iView, layer_set_hidden,
        emit, APP_LOG, h, MAIN_VIEW, TIMER_VIEW, ANALOG_VIEW, NUM_VIEWS, Act.isRedraw]
  · rcases hv with h | h | h <;>
      simp [invocation, up_click_handler, close_view, open_view, set_g_iView, layer_set_hidden,
        emit, APP_LOG, h, MAIN_VIEW, TIMER_VIEW, ANALOG_VIEW, NUM_VIEWS, Act.isRedraw,
        Act.isWrite, redrawAfterWrites]
  · rcases hv with h | h | h <;>
      simp [invocation, down_click_handler, close_view, open_view, set_g_iView,
        layer_set_hidden, emit, APP_LOG, h, MAIN_VIEW, TIMER_VIEW, ANALOG_VIEW, NUM_VIEWS,
        Act.isRedraw]
  · rcases hv with h | h | h <;>
      simp [invocation, down_click_handler, close_view, open_view, set_g_iView,
        layer_set_hidden, emit, APP_LOG, h, MAIN_VIEW, TIMER_VIEW, ANALOG_VIEW, NUM_VIEWS,
        Act.isRedraw, Act.isWrite, redrawAfterWrites]
  · rcases ht with h | h | h <;> by_cases hview : s.g_iView = TIMER_VIEW <;>
      simp [invocation, timer_toggle, update_timer, set_g_iTimerState, set_g_tTimerStart,
        set_g_szTimer, text_layer_set_text, emit, APP_LOG, h, hview, TIMER_RESET,
        TIMER_RUNNING, TIMER_IDLE, Act.isRedraw, Act.isWrite, redrawAfterWrites]
  · rcases ht with h | h | h <;> by_cases hview : s.g_iView = TIMER_VIEW <;>
      simp [invocation, timer_toggle, update_timer, set_g_iTimerState, set_g_tTimerStart,
        set_g_szTimer, text_layer_set_text, emit, APP_LOG, h, hview, TIMER_RESET,
        TIMER_RUNNING, TIMER_IDLE]
  · simp [invocation, handle_battery_state, set_g_iBatteryCharging, emit, APP_LOG]
  · simp [invocation, handle_battery_state, set_g_iBatteryCharging, emit, APP_LOG,
      Act.isRedraw, Act.isWrite, redrawAfterWrites]
  · by_cases hg : s.g_iView = TIMER_VIEW ∧ s.g_iTimerState = TIMER_RUNNING <;>
      cases is24h <;>
      simp [invocation, handle_tick, update_time, update_timer, set_g_szTime, set_g_szDate,
        set_g_szTimer, text_layer_set_text, emit, hg, Act.isRedraw, Act.isWrite,
        redrawAfterWrites]
  · intro h
    simp [invocation, timer_toggle, set_g_iTimerState, set_g_tTimerStart, emit, APP_LOG, h,
      TIMER_RESET]
  · intro h hview
    simp [invocation, timer_toggle, update_timer, set_g_iTimerState, set_g_szTimer,
      text_layer_set_text, emit, APP_LOG, h, hview, TIMER_RESET, TIMER_RUNNING]
  · intro h hview
    simp [invocation, timer_toggle, update_timer, set_g_iTimerState, emit, APP_LOG, h, hview,
      TIMER_RESET, TIMER_RUNNING]
  · intro h
    simp [invocation, timer_toggle, set_g_iTimerState, text_layer_set_text, emit, APP_LOG, h,
      TIMER_RESET, TIMER_RUNNING, TIMER_IDLE]

/-- C6 at the state left by start-up: the up press from the main view
requests a redraw, and timer_toggle with the timer reset requests none after
its writes. -/
theorem redraw_requests_in_handlers_witness :
    (window_load initial).g_iView = MAIN_VIEW ∧
    (window_load initial).g_iTimerState = TIMER_RESET ∧
    (invocation up_click_handler (window_load initial)).any Act.isRedraw = true ∧
    redrawAfterWrites (invocation (timer_toggle samplePlatform 7) (window_load initial))
      = false :=
  ⟨by decide, by decide,
    (redraw_requests_in_handlers samplePlatform 7 true sampleTime sampleCharging
      (window_load initial) (Or.inl (by decide)) (Or.inl (by decide))).1,
    (redraw_requests_in_handlers samplePlatform 7 true sampleTime sampleCharging
      (window_load initial) (Or.inl (by decide)) (Or.inl (by decide))).2.2.2.2.1⟩

/-- C6 fails as stated: after start-up, a battery notification writes
g_iBatteryCharging and then only logs; a select press in the timer view with
the timer reset writes g_tTimerStart and g_iTimerState after its last call;
and the up press from the main view makes its two layer_set_hidden calls before
it writes g_iView and none after. -/
theorem redraw_requests_in_handlers_counterexample :
    invocation (handle_battery_state sampleCharging) (window_load initial)
      = [Act.write Var.g_iBatteryCharging, Act.app_log] ∧
    invocation (select_click_handler samplePlatform 7) (down_click_handler (window_load initial))
      = [Act.app_log, Act.write Var.g_tTimerStart, Act.write Var.g_iTimerState] ∧
    invocation up_click_handler (window_load initial)
      = [Act.layer_set_hidden LayerId.g_pTimeLayer true,
          Act.layer_set_hidden LayerId.g_pDateLayer true,
          Act.write Var.g_iView, Act.write Var.g_iView, Act.app_log] ∧
    redrawAfterWrites (invocation (handle_battery_state sampleCharging) (window_load initial))
      = false ∧
    redrawAfterWrites (invocation (select_click_handler samplePlatform 7)
      (down_click_handler (window_load initial))) = false ∧
    redrawAfterWrites (invocation up_click_handler (window_load initial)) = false := by
  decide

section Visibility

variable (P : Platform)

theorem up_click_handler_layers (s : State) (hv : ValidView s) (hl : LayersTrackView s) :
    LayersTrackView (up_click_handler s) := by
  unfold LayersTrackView ValidView at *
  obtain ⟨h1, h2, h3⟩ := hl
  rcases hv with h | h | h <;>
    simp_all [up_click_handler, close_view, open_view, set_g_iView, layer_set_hidden, emit,
      APP_LOG, MAIN_VIEW, TIMER_VIEW, ANALOG_VIEW, NUM_VIEWS]

theorem down_click_handler_layers (s : State) (hv : ValidView s) (hl : LayersTrackView s) :
    LayersTrackView (down_click_handler s) := by
  unfold LayersTrackView ValidView at *
  obtain ⟨h1, h2, h3⟩ := hl
  rcases hv with h | h | h <;>
    simp_all [down_click_handler, close_view, open_view, set_g_iView, layer_set_hidden, emit,
      APP_LOG, MAIN_VIEW, TIMER_VIEW, ANALOG_VIEW, NUM_VIEWS]

theorem handle_layers (s : State) (e : Event) (hv : ValidView s) (hl : LayersTrackView s) :
    LayersTrackView (handle P s e) := by
  cases e with
  | up => exact up_click_handler_layers s hv hl
  | down => exact down_click_handler_layers s hv hl
  | select now =>
    obtain ⟨a1, _, a3, a4, a5⟩ := select_click_handler_frame P now s
    unfold LayersTrackView at *
    simp only [handle, a1, a3, a4, a5]
    exact hl
  | tick is24h now tick_time =>
    obtain ⟨a1, _, _, _, a5, a6, a7⟩ := handle_tick_frame P is24h now tick_time s
    unfold LayersTrackView at *
    simp only [handle, a1, a5, a6, a7]
    exact hl
  | battery c =>
    obtain ⟨a1, _, _, _, a5, a6, a7, _⟩ := handle_battery_state_frame c s
    unfold LayersTrackView at *
    simp only [handle, a1, a5, a6, a7]
    exact hl

theorem run_layers (events : List Event) (s : State) (hv : ValidView s)
    (hl : LayersTrackView s) : LayersTrackView (run P s events) := by
  induction events generalizing s with
  | nil => exact hl
  | cons e rest ih =>
    exact ih (handle P s e) (handle_validView P s e hv) (handle_layers P s e hv hl)

theorem window_load_layers :
    (window_load initial).g_iView = MAIN_VIEW ∧
    (window_load initial).g_pTimeLayer.hidden = false ∧
    (window_load initial).g_pDateLayer.hidden = false ∧
    (window_load initial).g_pTimerLayer.hidden = true := by
  decide

end Visibility

/-- C7. Layer visibility tracks the current view: window_load leaves
g_iView = MAIN_VIEW with the time and date layers shown and the timer layer
hidden, and in every state reached from there by any sequence of up, down and
select clicks, ticks and battery notifications, the time layer and the date
layer are shown if and only if g_iView = MAIN_VIEW and the timer layer is shown
if and only if g_iView = TIMER_VIEW; so in ANALOG_VIEW all three are hidden. -/
theorem layer_visibility_tracks_view (P : Platform) (events : List Event) :
    ((window_load initial).g_iView = MAIN_VIEW ∧
      (window_load initial).g_pTimeLayer.hidden = false ∧
      (window_load initial).g_pDateLayer.hidden = false ∧
      (window_load initial).g_pTimerLayer.hidden = true) ∧
    ((run P (window_load initial) events).g_pTimeLayer.hidden = false ↔
      (run P (window_load initial) events).g_iView = MAIN_VIEW) ∧
    ((run P (window_load initial) events).g_pDateLayer.hidden = false ↔
      (run P (window_load initial) events).g_iView = MAIN_VIEW) ∧
    ((run P (window_load initial) events).g_pTimerLayer.hidden = false ↔
      (run P (window_load initial) events).g_iView = TIMER_VIEW) ∧
    ((run P (window_load initial) events).g_iView = ANALOG_VIEW →
      (run P (window_load initial) events).g_pTimeLayer.hidden = true ∧
      (run P (window_load initial) events).g_pDateLayer.hidden = true ∧
      (run P (window_load initial) events).g_pTimerLayer.hidden = true) := by
  have hv : ValidView (window_load initial) := Or.inl (by decide)
  have hl : LayersTrackView (window_load initial) := by
    unfold LayersTrackView
    decide
  obtain ⟨h1, h2, h3⟩ := run_layers P events (window_load initial) hv hl
  refine ⟨window_load_layers, h1, h2, h3, ?_⟩
  intro ha
  have n1 : ¬ (run P (window_load initial) events).g_iView = MAIN_VIEW := by
    rw [ha]; decide
  have n2 : ¬ (run P (window_load initial) events).g_iView = TIMER_VIEW := by
    rw [ha]; decide
  refine ⟨?_, ?_, ?_⟩
  · simpa using mt h1.mp n1
  · simpa using mt h2.mp n1
  · simpa using mt h3.mp n2

/-- C7 after an up press from start-up: the analog view, all three text layers
hidden. -/
theorem layer_visibility_tracks_view_witness :
    (run samplePlatform (window_load initial) [Event.up]).g_iView = ANALOG_VIEW ∧
    (run samplePlatform (window_load initial) [Event.up]).g_pTimeLayer.hidden = true ∧
    (run samplePlatform (window_load initial) [Event.up]).g_pDateLayer.hidden = true ∧
    (run samplePlatform (window_load initial) [Event.up]).g_pTimerLayer.hidden = true :=
  ⟨by decide, (layer_visibility_tracks_view samplePlatform [Event.up]).2.2.2.2 (by decide)⟩

section TimerFrame

variable (P : Platform)

theorem update_timer_idle (now : Int) (s : State)
    (h : s.g_iView ≠ TIMER_VIEW ∨ s.g_iTimerState ≠ TIMER_RUNNING) :
    update_timer P now s = s := by
  unfold update_timer
  rw [if_neg]
  rintro ⟨h1, h2⟩
  rcases h with h | h
  · exact h h1
  · exact h h2

theorem handle_tick_idle (is24h : Bool) (now : Int) (tick_time : Tm) (s : State)
    (h : s.g_iView ≠ TIMER_VIEW ∨ s.g_iTimerState ≠ TIMER_RUNNING) :
    (handle_tick P is24h now tick_time s).g_szTimer = s.g_szTimer ∧
    (handle_tick P is24h now tick_time s).g_pTimerLayer = s.g_pTimerLayer := by
  obtain ⟨b1, b2, _, _, b5, b6, _, _⟩ := update_time_frame P is24h tick_time s
  unfold handle_tick
  rw [update_timer_idle P now _ (by rw [b1, b2]; exact h)]
  exact ⟨b5, b6⟩

theorem run_ticks_idle (ticks : List (Bool × Int × Tm)) (s : State)
    (h : s.g_iTimerState = TIMER_IDLE) :
    (run P s (tickEvents ticks)).g_szTimer = s.g_szTimer ∧
    (run P s (tickEvents ticks)).g_pTimerLayer = s.g_pTimerLayer ∧
    (run P s (tickEvents ticks)).g_iTimerState = TIMER_IDLE := by
  induction ticks generalizing s with
  | nil => exact ⟨rfl, rfl, h⟩
  | cons t rest ih =>
    have hidle : s.g_iView ≠ TIMER_VIEW ∨ s.g_iTimerState ≠ TIMER_RUNNING := by
      right; rw [h]; decide
    obtain ⟨c1, c2⟩ := handle_tick_idle P t.1 t.2.1 t.2.2 s hidle
    have c3 := (handle_tick_frame P t.1 t.2.1 t.2.2 s).2.1
    have hstep : run P s (tickEvents (t :: rest))
        = run P (handle_tick P t.1 t.2.1 t.2.2 s) (tickEvents rest) := rfl
    obtain ⟨d1, d2, d3⟩ := ih (handle_tick P t.1 t.2.1 t.2.2 s) (by rw [c3]; exact h)
    rw [hstep]
    exact ⟨by rw [d1, c1], by rw [d2, c2], d3⟩

theorem up_click_handler_timerText (s : State) :
    (up_click_handler s).g_pTimerLayer.text = s.g_pTimerLayer.text := by
  unfold up_click_handler close_view open_view
  simp only [APP_LOG, set_g_iView]
  split_ifs <;> simp [layer_set_hidden, emit]

theorem down_click_handler_timerText (s : State) :
    (down_click_handler s).g_pTimerLayer.text = s.g_pTimerLayer.text := by
  unfold down_click_handler close_view open_view
  simp only [APP_LOG, set_g_iView]
  split_ifs <;> simp [layer_set_hidden, emit]

theorem handle_timerTextOwn (s : State) (e : Event) (h : TimerTextOwn s) :
    TimerTextOwn (handle P s e) := by
  unfold TimerTextOwn at *
  cases e with
  | up => simp only [handle, up_click_handler_timerText]; exact h
  | down => simp only [handle, down_click_handler_timerText]; exact h
  | select now =>
    simp only [handle, select_click_handler, timer_toggle, update_timer]
    split_ifs <;>
      simp_all [set_g_iTimerState, set_g_tTimerStart, set_g_szTimer, text_layer_set_text, emit,
        APP_LOG]
  | tick is24h now tick_time =>
    have b6 := (update_time_frame P is24h tick_time s).2.2.2.2.2.1
    simp only [handle, handle_tick, update_timer]
    split_ifs
    · simp [set_g_szTimer, text_layer_set_text, emit]
    · rw [b6]; exact h
  | battery c =>
    simp only [handle, (handle_battery_state_frame c s).2.2.2.2.2.2.1]; exact h

theorem run_timerTextOwn (events : List Event) (s : State) (h : TimerTextOwn s) :
    TimerTextOwn (run P s events) := by
  induction events generalizing s with
  | nil => exact h
  | cons e rest ih => exact ih (handle P s e) (handle_timerTextOwn P s e h)

theorem shown_timer_eq (s t : State) (h : TimerTextOwn s)
    (h1 : t.g_pTimerLayer = s.g_pTimerLayer) (h2 : t.g_szTimer = s.g_szTimer) :
    t.shown LayerId.g_pTimerLayer = s.shown LayerId.g_pTimerLayer := by
  unfold State.shown State.layer
  simp only [h1]
  rcases h with h | h <;> rw [h] <;> simp [State.deref, h2]

end TimerFrame

/-- C8. The timer display is updated only when the timer is visible and
running: in every state with g_iView != TIMER_VIEW or g_iTimerState !=
TIMER_RUNNING, update_timer changes nothing at all, and handle_tick leaves the
buffer g_szTimer and the timer layer (its text pointer included) unchanged;
update_timer and handle_tick never change g_iTimerState, g_tTimerStart or
g_iView; and once the timer is in TIMER_IDLE no sequence of ticks changes
g_szTimer, the timer layer, the timer state or, in a state reached from
start-up, the text the timer layer shows. -/
theorem update_timer_only_when_running (P : Platform) (now : Int) (is24h : Bool)
    (tick_time : Tm) (s : State) (events : List Event) (ticks : List (Bool × Int × Tm)) :
    (s.g_iView ≠ TIMER_VIEW ∨ s.g_iTimerState ≠ TIMER_RUNNING →
      update_timer P now s = s ∧
      (handle_tick P is24h now tick_time s).g_szTimer = s.g_szTimer ∧
      (handle_tick P is24h now tick_time s).g_pTimerLayer = s.g_pTimerLayer) ∧
    ((update_timer P now s).g_iTimerState = s.g_iTimerState ∧
      (update_timer P now s).g_tTimerStart = s.g_tTimerStart ∧
      (update_timer P now s).g_iView = s.g_iView) ∧
    ((handle_tick P is24h now tick_time s).g_iTimerState = s.g_iTimerState ∧
      (handle_tick P is24h now tick_time s).g_tTimerStart = s.g_tTimerStart ∧
      (handle_tick P is24h now tick_time s).g_iView = s.g_iView) ∧
    (s.g_iTimerState = TIMER_IDLE →
      (run P s (tickEvents ticks)).g_szTimer = s.g_szTimer ∧
      (run P s (tickEvents ticks)).g_pTimerLayer = s.g_pTimerLayer ∧
      (run P s (tickEvents ticks)).g_iTimerState = TIMER_IDLE) ∧
    ((run P (window_load initial) events).g_iTimerState = TIMER_IDLE →
      (run P (run P (window_load initial) events) (tickEvents ticks)).shown
          LayerId.g_pTimerLayer
        = (run P (window_load initial) events).shown LayerId.g_pTimerLayer) := by
  obtain ⟨a1, a2, a3, _⟩ := update_timer_frame P now s
  obtain ⟨b1, b2, b3, _⟩ := handle_tick_frame P is24h now tick_time s
  refine ⟨?_, ⟨a2, a3, a1⟩, ⟨b2, b3, b1⟩, run_ticks_idle P ticks s, ?_⟩
  · intro h
    exact ⟨update_timer_idle P now s h, handle_tick_idle P is24h now tick_time s h⟩
  · intro h
    obtain ⟨d1, d2, _⟩ := run_ticks_idle P ticks (run P (window_load initial) events) h
    have hown : TimerTextOwn (run P (window_load initial) events) :=
      run_timerTextOwn P events (window_load initial) (Or.inr (by decide))
    exact shown_timer_eq _ _ hown d2 d1

/-- C8 at start-up, where the main view is shown: update_timer changes
nothing. -/
theorem update_timer_only_when_running_witness :
    (window_load initial).g_iView ≠ TIMER_VIEW ∧
    update_timer samplePlatform 50 (window_load initial) = window_load initial :=
  ⟨by decide,
    ((update_timer_only_when_running samplePlatform 50 true sampleTime
      (window_load initial) [] []).1 (Or.inl (by decide))).1⟩

/-- C9. Hand angles: with TRIG_MAX_ANGLE = 65536, for tm_hour in 0..23 and
tm_min in 0..59 the hour-hand angle of draw_analog_clock is
floor(65536 * ((tm_hour mod 12) * 60 + tm_min) / 720) and the minute-hand angle
is floor(65536 * tm_min / 60); every intermediate value fits a 32-bit signed
int; both angles lie in [0, 65536); the hour-hand angle is the same for
tm_hour and tm_hour + 12, is 0 exactly at 0:00 and 12:00, and does not decrease
when the minutes elapsed within the half-day do not. -/
theorem hand_angles (tm tm2 : Tm)
    (hh : 0 ≤ tm.tm_hour ∧ tm.tm_hour ≤ 23) (hm : 0 ≤ tm.tm_min ∧ tm.tm_min ≤ 59)
    (hh2 : 0 ≤ tm2.tm_hour ∧ tm2.tm_hour ≤ 23) (hm2 : 0 ≤ tm2.tm_min ∧ tm2.tm_min ≤ 59) :
    hour_theta tm = (65536 * ((tm.tm_hour % 12) * 60 + tm.tm_min)) / 720 ∧
    hour_theta tm = ⌊((65536 * ((tm.tm_hour % 12) * 60 + tm.tm_min) : Int) : ℚ) / 720⌋ ∧
    minute_theta tm = (65536 * tm.tm_min) / 60 ∧
    minute_theta tm = ⌊((65536 * tm.tm_min : Int) : ℚ) / 60⌋ ∧
    (inInt32 (tm.tm_hour.tmod 12) ∧ inInt32 (tm.tm_hour.tmod 12 * 60) ∧
      inInt32 (tm.tm_hour.tmod 12 * 60 + tm.tm_min) ∧
      inInt32 (TRIG_MAX_ANGLE * (tm.tm_hour.tmod 12 * 60 + tm.tm_min)) ∧
      inInt32 (TRIG_MAX_ANGLE * tm.tm_min)) ∧
    (0 ≤ hour_theta tm ∧ hour_theta tm < 65536) ∧
    (0 ≤ minute_theta tm ∧ minute_theta tm < 65536) ∧
    (tm.tm_hour ≤ 11 →
      hour_theta { tm with tm_hour := tm.tm_hour + 12 } = hour_theta tm) ∧
    (hour_theta tm = 0 ↔ (tm.tm_hour = 0 ∨ tm.tm_hour = 12) ∧ tm.tm_min = 0) ∧
    ((tm.tm_hour % 12) * 60 + tm.tm_min ≤ (tm2.tm_hour % 12) * 60 + tm2.tm_min →
      hour_theta tm ≤ hour_theta tm2) := by
  obtain ⟨hh0, hh1⟩ := hh
  obtain ⟨hm0, hm1⟩ := hm
  obtain ⟨hh20, hh21⟩ := hh2
  obtain ⟨hm20, hm21⟩ := hm2
  have tmod_eq : ∀ x : Int, 0 ≤ x → x.tmod 12 = x % 12 := fun x hx =>
    Int.tmod_eq_emod hx (by norm_num)
  have hH : ∀ t : Tm, 0 ≤ t.tm_hour → 0 ≤ t.tm_min →
      hour_theta t = (65536 * ((t.tm_hour % 12) * 60 + t.tm_min)) / 720 := by
    intro t h1 h2
    unfold hour_theta TRIG_MAX_ANGLE
    rw [tmod_eq _ h1, Int.tdiv_eq_ediv (by omega) (by norm_num)]
    rfl
  have hM : minute_theta tm = (65536 * tm.tm_min) / 60 := by
    unfold minute_theta TRIG_MAX_ANGLE
    rw [Int.tdiv_eq_ediv (by omega) (by norm_num)]
  have hfloor : ∀ a : Int, ∀ b : Nat, ⌊(a : ℚ) / (b : ℚ)⌋ = a / (b : Int) := fun a b =>
    Rat.floor_intCast_div_natCast a b
  refine ⟨hH tm hh0 hm0, ?_, hM, ?_, ?_, ?_, ?_, ?_, ?_, ?_⟩
  · rw [hH tm hh0 hm0]
    have := hfloor (65536 * ((tm.tm_hour % 12) * 60 + tm.tm_min)) 720
    simpa using this.symm
  · rw [hM]
    have := hfloor (65536 * tm.tm_min) 60
    simpa using this.symm
  · unfold inInt32 TRIG_MAX_ANGLE
    rw [tmod_eq _ hh0]
    omega
  · rw [hH tm hh0 hm0]; omega
  · rw [hM]; omega
  · intro h11
    have h12 : (0 : Int) ≤ tm.tm_hour + 12 := by omega
    rw [hH tm hh0 hm0, hH { tm with tm_hour := tm.tm_hour + 12 } h12 hm0]
    show 65536 * ((tm.tm_hour + 12) % 12 * 60 + tm.tm_min) / 720 = _
    omega
  · rw [hH tm hh0 hm0]; omega
  · intro hle
    rw [hH tm hh0 hm0, hH tm2 hh20 hm20]
    omega

/-- C9 at 03:15: the hour hand is at 17749 and the minute hand at 16384. -/
theorem hand_angles_witness :
    (0 ≤ sampleTime.tm_hour ∧ sampleTime.tm_hour ≤ 23) ∧
    (0 ≤ sampleTime.tm_min ∧ sampleTime.tm_min ≤ 59) ∧
    hour_theta sampleTime = 17749 ∧
    minute_theta sampleTime = 16384 :=
  ⟨by decide, by decide,
    (hand_angles sampleTime sampleTime (by decide) (by decide) (by decide)
      (by decide)).1.trans (by decide),
    (hand_angles sampleTime sampleTime (by decide) (by decide) (by decide)
      (by decide)).2.2.1.trans (by decide)⟩

section Polar

/-- A truncated quotient of a numerator within `r * R` in size is within `r`
in size. -/
theorem tdiv_abs_le (a r R : Int) (hr : 0 ≤ r) (hR : 0 ≤ R) (h1 : -(r * R) ≤ a)
    (h2 : a ≤ r * R) : -r ≤ a.tdiv R ∧ a.tdiv R ≤ r := by
  rcases eq_or_lt_of_le hR with h0 | hpos
  · subst h0
    simp only [Int.tdiv_zero]
    omega
  · have key : ∀ b : Int, 0 ≤ b → b ≤ r * R → 0 ≤ b / R ∧ b / R ≤ r := by
      intro b hb0 hb
      refine ⟨Int.ediv_nonneg hb0 hR, ?_⟩
      have : b / R ≤ (r * R) / R := Int.ediv_le_ediv hpos hb
      rwa [Int.mul_ediv_cancel _ hpos.ne'] at this
    rcases le_total 0 a with ha | ha
    · rw [Int.tdiv_eq_ediv ha hR]
      have := key a ha h2
      omega
    · have hna : 0 ≤ -a := by omega
      have h3 : a.tdiv R = -((-a) / R) := by
        rw [← Int.tdiv_eq_ediv hna hR, Int.neg_tdiv, neg_neg]
      have := key (-a) hna (by omega)
      omega

theorem toUInt16_add_toUInt16 (c x : Int) : toUInt16 (c + toUInt16 x) = toUInt16 (c + x) := by
  unfold toUInt16
  omega

end Polar

/-- C10. The uint16_t wrap-around in the polar-to-cartesian helpers cancels:
for sin_lookup and cos_lookup with values in [-TRIG_MAX_RATIO, TRIG_MAX_RATIO],
every angle theta, every radius 0 <= r < 2^15 and every layer size with
0 <= w, h < 2^15, with qx = trunc(r * sin_lookup(theta) / TRIG_MAX_RATIO) and
qy = trunc(r * -cos_lookup(theta) / TRIG_MAX_RATIO): |qx|, |qy| <= r;
remap_x_to_origin(bounds, polar_to_x(theta, r)) = (w div 2 + qx) mod 2^16 and
remap_y_to_origin(bounds, polar_to_y(theta, r)) = (h div 2 + qy) mod 2^16; and
whenever r <= w div 2 (r <= h div 2) the result is the exact signed screen
coordinate w div 2 + qx (h div 2 + qy), lies in [0, w] ([0, h]) and is kept by
the int16_t field of the point; for TRIG_MAX_RATIO <= 65536 the products fit a
32-bit int. -/
theorem polar_remap_wrap_cancels (P : Platform) (bounds : GRect) (theta r : Int)
    (hsin : ∀ t, -P.TRIG_MAX_RATIO ≤ P.sin_lookup t ∧ P.sin_lookup t ≤ P.TRIG_MAX_RATIO)
    (hcos : ∀ t, -P.TRIG_MAX_RATIO ≤ P.cos_lookup t ∧ P.cos_lookup t ≤ P.TRIG_MAX_RATIO)
    (hr : 0 ≤ r ∧ r < 32768)
    (hw : 0 ≤ bounds.size.w ∧ bounds.size.w < 32768)
    (hh : 0 ≤ bounds.size.h ∧ bounds.size.h < 32768) :
    (-r ≤ (r * P.sin_lookup theta).tdiv P.TRIG_MAX_RATIO ∧
      (r * P.sin_lookup theta).tdiv P.TRIG_MAX_RATIO ≤ r) ∧
    (-r ≤ (r * -P.cos_lookup theta).tdiv P.TRIG_MAX_RATIO ∧
      (r * -P.cos_lookup theta).tdiv P.TRIG_MAX_RATIO ≤ r) ∧
    remap_x_to_origin bounds (polar_to_x P theta r)
      = (bounds.size.w / 2 + (r * P.sin_lookup theta).tdiv P.TRIG_MAX_RATIO) % 65536 ∧
    remap_y_to_origin bounds (polar_to_y P theta r)
      = (bounds.size.h / 2 + (r * -P.cos_lookup theta).tdiv P.TRIG_MAX_RATIO) % 65536 ∧
    (r ≤ bounds.size.w / 2 →
      remap_x_to_origin bounds (polar_to_x P theta r)
        = bounds.size.w / 2 + (r * P.sin_lookup theta).tdiv P.TRIG_MAX_RATIO ∧
      0 ≤ remap_x_to_origin bounds (polar_to_x P theta r) ∧
      remap_x_to_origin bounds (polar_to_x P theta r) ≤ bounds.size.w ∧
      toInt16 (remap_x_to_origin bounds (polar_to_x P theta r))
        = bounds.size.w / 2 + (r * P.sin_lookup theta).tdiv P.TRIG_MAX_RATIO) ∧
    (r ≤ bounds.size.h / 2 →
      remap_y_to_origin bounds (polar_to_y P theta r)
        = bounds.size.h / 2 + (r * -P.cos_lookup theta).tdiv P.TRIG_MAX_RATIO ∧
      0 ≤ remap_y_to_origin bounds (polar_to_y P theta r) ∧
      remap_y_to_origin bounds (polar_to_y P theta r) ≤ bounds.size.h ∧
      toInt16 (remap_y_to_origin bounds (polar_to_y P theta r))
        = bounds.size.h / 2 + (r * -P.cos_lookup theta).tdiv P.TRIG_MAX_RATIO) ∧
    (P.TRIG_MAX_RATIO ≤ 65536 →
      inInt32 (r * P.sin_lookup theta) ∧ inInt32 (r * -P.cos_lookup theta)) := by
  obtain ⟨hr0, hr1⟩ := hr
  obtain ⟨hw0, hw1⟩ := hw
  obtain ⟨hh0, hh1⟩ := hh
  have hR : 0 ≤ P.TRIG_MAX_RATIO := by
    have := hsin 0
    omega
  have hs1 : -(r * P.TRIG_MAX_RATIO) ≤ r * P.sin_lookup theta := by
    have := mul_le_mul_of_nonneg_left (hsin theta).1 hr0
    linarith
  have hs2 : r * P.sin_lookup theta ≤ r * P.TRIG_MAX_RATIO :=
    mul_le_mul_of_nonneg_left (hsin theta).2 hr0
  have hc1 : -(r * P.TRIG_MAX_RATIO) ≤ r * -P.cos_lookup theta := by
    have := mul_le_mul_of_nonneg_left (hcos theta).2 hr0
    linarith
  have hc2 : r * -P.cos_lookup theta ≤ r * P.TRIG_MAX_RATIO := by
    have := mul_le_mul_of_nonneg_left (hcos theta).1 hr0
    linarith
  have hqx := tdiv_abs_le _ r _ hr0 hR hs1 hs2
  have hqy := tdiv_abs_le _ r _ hr0 hR hc1 hc2
  have hx : remap_x_to_origin bounds (polar_to_x P theta r)
      = (bounds.size.w / 2 + (r * P.sin_lookup theta).tdiv P.TRIG_MAX_RATIO) % 65536 := by
    unfold remap_x_to_origin polar_to_x
    rw [toUInt16_add_toUInt16, Int.tdiv_eq_ediv hw0 (by norm_num)]
    rfl
  have hy : remap_y_to_origin bounds (polar_to_y P theta r)
      = (bounds.size.h / 2 + (r * -P.cos_lookup theta).tdiv P.TRIG_MAX_RATIO) % 65536 := by
    unfold remap_y_to_origin polar_to_y
    rw [toUInt16_add_toUInt16, Int.tdiv_eq_ediv hh0 (by norm_num)]
    rfl
  refine ⟨hqx, hqy, hx, hy, ?_, ?_, ?_⟩
  · intro hle
    rw [hx]
    unfold toInt16
    generalize (r * P.sin_lookup theta).tdiv P.TRIG_MAX_RATIO = q at hqx ⊢
    omega
  · intro hle
    rw [hy]
    unfold toInt16
    generalize (r * -P.cos_lookup theta).tdiv P.TRIG_MAX_RATIO = q at hqy ⊢
    omega
  · intro hR2
    unfold inInt32
    have hb : r * P.TRIG_MAX_RATIO ≤ 32767 * 65536 := by
      have h1 : r * P.TRIG_MAX_RATIO ≤ 32767 * P.TRIG_MAX_RATIO :=
        mul_le_mul_of_nonneg_right (by omega) hR
      omega
    omega

/-- C10 on the 144 x 168 screen with the hour marks' radius 64: the mark at
nine o'clock (theta = 49152, sine -TRIG_MAX_RATIO) has the negative offset -64,
which polar_to_x returns as 65472 and the remapping turns into x = 8, with
y = 84. -/
theorem polar_remap_wrap_cancels_witness :
    (∀ t, -samplePlatform.TRIG_MAX_RATIO ≤ samplePlatform.sin_lookup t ∧
      samplePlatform.sin_lookup t ≤ samplePlatform.TRIG_MAX_RATIO) ∧
    (∀ t, -samplePlatform.TRIG_MAX_RATIO ≤ samplePlatform.cos_lookup t ∧
      samplePlatform.cos_lookup t ≤ samplePlatform.TRIG_MAX_RATIO) ∧
    polar_to_x samplePlatform 49152 64 = 65472 ∧
    remap_x_to_origin sampleBounds (polar_to_x samplePlatform 49152 64) = 8 ∧
    remap_y_to_origin sampleBounds (polar_to_y samplePlatform 49152 64) = 84 :=
  ⟨fun t => by simp only [samplePlatform]; split_ifs <;> omega,
    fun t => by simp only [samplePlatform]; split_ifs <;> omega,
    by decide,
    ((polar_remap_wrap_cancels samplePlatform sampleBounds 49152 64
      (fun t => by simp only [samplePlatform]; split_ifs <;> omega)
      (fun t => by simp only [samplePlatform]; split_ifs <;> omega)
      (by decide) (by decide) (by decide)).2.2.2.2.1 (by decide)).1.trans (by decide),
    ((polar_remap_wrap_cancels samplePlatform sampleBounds 49152 64
      (fun t => by simp only [samplePlatform]; split_ifs <;> omega)
      (fun t => by simp only [samplePlatform]; split_ifs <;> omega)
      (by decide) (by decide) (by decide)).2.2.2.2.2.1 (by decide)).1.trans (by decide)⟩

end BasicFace
